import Mathlib

/-!
# Khronicle - verification of the ingestion/persistence/query core

Shallow embedding of the Khronicle daemon's core (src/src/daemon and
src/src/common) in Lean 4, together with theorems settling the frozen
claims about it.

Conventions of the embedding:
* `std::chrono::system_clock::time_point` is modelled as `Int`, a count of
  milliseconds since the Unix epoch (a default-constructed time point is `0`).
* `nlohmann::json` is modelled by the inductive `Json` below; JSON objects
  are association lists iterated in list order (nlohmann keeps object keys
  in a sorted map; the code below never depends on that order except via
  `std::set`, which is modelled explicitly by `insertSortedKey`).
* Stateful C++ (the SQLite store, the daemon loop) becomes explicit state
  passing over `StoreState` / `DaemonState`.
* Environment inputs (file contents, `journalctl` output, the local time
  zone, the wall clock, randomness for UUIDs) become explicit parameters;
  a UTC offset in minutes stands for `localtime_r`, and a counter-backed
  supply stands for the random UUID generator.
* All strings in the modelled inputs are ASCII, so `std::string` byte
  positions coincide with character positions.

The `KhronicleEvent` record carries `riskLevel`/`riskReason` fields: the
snapshot of `common/models.hpp` in the repository omits them, but
`risk_classifier.cpp`, `pacman_parser.cpp` and `common/json_utils.hpp`
all read and write `event.riskLevel` / `event.riskReason`, so the struct
they compile against must have them.
-/

namespace Khronicle

/-- Model of `nlohmann::json` values (numbers restricted to integers,
which is all the embedded code constructs). -/
inductive Json where
  | null : Json
  | bool (b : Bool) : Json
  | num (n : Int) : Json
  | str (s : String) : Json
  | arr (elems : List Json) : Json
  | obj (fields : List (String × Json)) : Json
  deriving Repr

mutual

/-- Decidable equality on `Json` (structural, like `nlohmann::json`
equality on the values the embedded code builds). -/
def Json.decEq : (a b : Json) → Decidable (a = b)
  | .null, .null => isTrue rfl
  | .null, .bool _ => isFalse (fun h => Json.noConfusion h)
  | .null, .num _ => isFalse (fun h => Json.noConfusion h)
  | .null, .str _ => isFalse (fun h => Json.noConfusion h)
  | .null, .arr _ => isFalse (fun h => Json.noConfusion h)
  | .null, .obj _ => isFalse (fun h => Json.noConfusion h)
  | .bool _, .null => isFalse (fun h => Json.noConfusion h)
  | .bool a, .bool b =>
    if h : a = b then isTrue (h ▸ rfl)
    else isFalse (fun hh => h (Json.bool.inj hh))
  | .bool _, .num _ => isFalse (fun h => Json.noConfusion h)
  | .bool _, .str _ => isFalse (fun h => Json.noConfusion h)
  | .bool _, .arr _ => isFalse (fun h => Json.noConfusion h)
  | .bool _, .obj _ => isFalse (fun h => Json.noConfusion h)
  | .num _, .null => isFalse (fun h => Json.noConfusion h)
  | .num _, .bool _ => isFalse (fun h => Json.noConfusion h)
  | .num a, .num b =>
    if h : a = b then isTrue (h ▸ rfl)
    else isFalse (fun hh => h (Json.num.inj hh))
  | .num _, .str _ => isFalse (fun h => Json.noConfusion h)
  | .num _, .arr _ => isFalse (fun h => Json.noConfusion h)
  | .num _, .obj _ => isFalse (fun h => Json.noConfusion h)
  | .str _, .null => isFalse (fun h => Json.noConfusion h)
  | .str _, .bool _ => isFalse (fun h => Json.noConfusion h)
  | .str _, .num _ => isFalse (fun h => Json.noConfusion h)
  | .str a, .str b =>
    if h : a = b then isTrue (h ▸ rfl)
    else isFalse (fun hh => h (Json.str.inj hh))
  | .str _, .arr _ => isFalse (fun h => Json.noConfusion h)
  | .str _, .obj _ => isFalse (fun h => Json.noConfusion h)
  | .arr _, .null => isFalse (fun h => Json.noConfusion h)
  | .arr _, .bool _ => isFalse (fun h => Json.noConfusion h)
  | .arr _, .num _ => isFalse (fun h => Json.noConfusion h)
  | .arr _, .str _ => isFalse (fun h => Json.noConfusion h)
  | .arr a, .arr b =>
    match Json.decEqList a b with
    | isTrue h => isTrue (h ▸ rfl)
    | isFalse h => isFalse (fun hh => h (Json.arr.inj hh))
  | .arr _, .obj _ => isFalse (fun h => Json.noConfusion h)
  | .obj _, .null => isFalse (fun h => Json.noConfusion h)
  | .obj _, .bool _ => isFalse (fun h => Json.noConfusion h)
  | .obj _, .num _ => isFalse (fun h => Json.noConfusion h)
  | .obj _, .str _ => isFalse (fun h => Json.noConfusion h)
  | .obj _, .arr _ => isFalse (fun h => Json.noConfusion h)
  | .obj a, .obj b =>
    match Json.decEqFields a b with
    | isTrue h => isTrue (h ▸ rfl)
    | isFalse h => isFalse (fun hh => h (Json.obj.inj hh))

/-- Decidable equality on `Json` array payloads. -/
def Json.decEqList : (a b : List Json) → Decidable (a = b)
  | [], [] => isTrue rfl
  | [], _ :: _ => isFalse (fun h => List.noConfusion h)
  | _ :: _, [] => isFalse (fun h => List.noConfusion h)
  | x :: xs, y :: ys =>
    match Json.decEq x y with
    | isTrue h1 =>
      match Json.decEqList xs ys with
      | isTrue h2 => isTrue (h1 ▸ h2 ▸ rfl)
      | isFalse h2 => isFalse (fun hh => h2 (List.cons.inj hh).2
        )
    | isFalse h1 => isFalse (fun hh => h1 (List.cons.inj hh).1)

/-- Decidable equality on `Json` object payloads. -/
def Json.decEqFields : (a b : List (String × Json)) → Decidable (a = b)
  | [], [] => isTrue rfl
  | [], _ :: _ => isFalse (fun h => List.noConfusion h)
  | _ :: _, [] => isFalse (fun h => List.noConfusion h)
  | (k, v) :: xs, (k', v') :: ys =>
    if hk : k = k' then
      match Json.decEq v v' with
      | isTrue hv =>
        match Json.decEqFields xs ys with
        | isTrue ht => isTrue (hk ▸ hv ▸ ht ▸ rfl)
        | isFalse ht => isFalse (fun hh => ht (List.cons.inj hh).2)
      | isFalse hv => isFalse (fun hh =>
          hv (congrArg Prod.snd (List.cons.inj hh).1))
    else isFalse (fun hh =>
        hk (congrArg Prod.fst (List.cons.inj hh).1))

end

instance : DecidableEq Json := Json.decEq

namespace Json

/-- `json::is_object()`. -/
def isObject : Json → Bool
  | .obj _ => true
  | _ => false

/-- `json::empty()` on an object (`false` on non-objects, which the code
only calls guarded by `is_object`). -/
def objIsEmpty : Json → Bool
  | .obj fields => fields.isEmpty
  | _ => true

/-- `json.find(key)` / `json.at(key)`: the first binding of `key` in an
object, if any. -/
def find : Json → String → Option Json
  | .obj fields, key => (fields.find? (fun p => p.1 == key)).map Prod.snd
  | _, _ => none

/-- `json.contains(key)`. -/
def containsKey (j : Json) (key : String) : Bool :=
  (j.find key).isSome

/-- The keys of an object in iteration order (`json.items()`), `[]` for
non-objects. -/
def keys : Json → List String
  | .obj fields => fields.map Prod.fst
  | _ => []

/-- The key/value items of an object in iteration order, `[]` for
non-objects. -/
def items : Json → List (String × Json)
  | .obj fields => fields
  | _ => []

end Json

/-! ## ASCII string helpers

The C++ code uses `std::tolower`, `std::isspace`, `std::string::find`,
`QString::indexOf/mid/left/trimmed/toLower/contains`. They are modelled
here over `List Char` with `String` wrappers; all modelled inputs are
ASCII. -/

/-- `std::tolower` / `QChar::toLower` on the ASCII range. -/
def charLower (c : Char) : Char :=
  if 'A' ≤ c ∧ c ≤ 'Z' then Char.ofNat (c.toNat + 32) else c

/-- Lower-casing of a whole string (`toLower` in `watch_engine.cpp`,
`QString::toLower`). -/
def strLower (s : String) : String :=
  String.mk (s.data.map charLower)

/-- `std::isspace` on the ASCII range. -/
def charIsSpace (c : Char) : Bool :=
  c = ' ' ∨ c = '\t' ∨ c = '\n' ∨ c = '\r' ∨ c = '\x0b' ∨ c = '\x0c'

/-- `trim` from `pacman_parser.cpp` / `QString::trimmed`. -/
def strTrim (s : String) : String :=
  String.mk ((s.data.dropWhile charIsSpace).reverse.dropWhile charIsSpace |>.reverse)

/-- Does `p` occur at the front of `l`? (`std::equal` on a window). -/
def listStartsWith [BEq α] : List α → List α → Bool
  | [], _ => true
  | _ :: _, [] => false
  | p :: ps, x :: xs => p == x && listStartsWith ps xs

/-- First position `≥ start` at which `needle` occurs in `hay`
(`std::string::find(needle, start)`), as an `Option`. -/
def listFindSeqFrom [BEq α] (hay needle : List α) (start : Nat) : Option Nat :=
  go (hay.drop start) start
where
  go : List α → Nat → Option Nat
    | [], i => if needle.isEmpty then some i else none
    | x :: xs, i =>
      if listStartsWith needle (x :: xs) then some i else go xs (i + 1)

/-- `std::string::find(needle, start)` on strings. -/
def strFindSubFrom (hay needle : String) (start : Nat) : Option Nat :=
  listFindSeqFrom hay.data needle.data start

/-- `std::string::find(ch, start)` on strings. -/
def strFindCharFrom (hay : String) (c : Char) (start : Nat) : Option Nat :=
  listFindSeqFrom hay.data [c] start

/-- `std::string::substr(pos, len)` (character positions; inputs ASCII). -/
def strSubstr (s : String) (pos len : Nat) : String :=
  String.mk ((s.data.drop pos).take len)

/-- `std::string::substr(pos)` to the end of the string. -/
def strSubstrFrom (s : String) (pos : Nat) : String :=
  String.mk (s.data.drop pos)

/-- Does `needle` occur anywhere in `hay`? (`find != npos`,
`QString::contains`). -/
def strContainsSub (hay needle : String) : Bool :=
  (strFindSubFrom hay needle 0).isSome

/-- `containsCaseInsensitive` from `watch_engine.cpp`. -/
def containsCaseInsensitive (value needle : String) : Bool :=
  if needle.isEmpty then true
  else strContainsSub (strLower value) (strLower needle)

/-- `listContainsSubstring` from `watch_engine.cpp`. -/
def listContainsSubstring (values : List String) (needle : String) : Bool :=
  if needle.isEmpty then true
  else values.any (fun v => containsCaseInsensitive v needle)

/-- `jsonKeysContainSubstring` from `watch_engine.cpp`. -/
def jsonKeysContainSubstring (obj : Json) (needle : String) : Bool :=
  if needle.isEmpty then true
  else if !obj.isObject then false
  else obj.items.any (fun item =>
    containsCaseInsensitive item.1 needle ||
      (match item.2 with
        | .str s => containsCaseInsensitive s needle
        | _ => false))

/-! ## Data model (`common/enums.hpp`, `common/models.hpp`) -/

/-- `EventCategory` from `common/enums.hpp`. -/
inductive EventCategory where
  | Kernel | GpuDriver | Firmware | Package | System
  deriving Repr, DecidableEq

/-- `EventSource` from `common/enums.hpp`. -/
inductive EventSource where
  | Pacman | Journal | Uname | Fwupd | Other
  deriving Repr, DecidableEq

/-- `WatchScope` from `common/models.hpp`. -/
inductive WatchScope where
  | Event | Snapshot
  deriving Repr, DecidableEq

/-- `WatchSeverity` from `common/models.hpp`. -/
inductive WatchSeverity where
  | Info | Warning | Critical
  deriving Repr, DecidableEq

/-- `KhronicleEvent` from `common/models.hpp`, with the
`riskLevel`/`riskReason` members that `risk_classifier.cpp`,
`pacman_parser.cpp` and `common/json_utils.hpp` read and write
(timestamps in epoch milliseconds). -/
structure KhronicleEvent where
  id : String := ""
  timestamp : Int := 0
  category : EventCategory := .System
  source : EventSource := .Other
  summary : String := ""
  details : String := ""
  beforeState : Json := .null
  afterState : Json := .null
  relatedPackages : List String := []
  hostId : String := ""
  riskLevel : String := ""
  riskReason : String := ""
  deriving Repr, DecidableEq

/-- `SystemSnapshot` from `common/models.hpp` (the `hostIdentity`
sub-record is kept as its `hostId`, the only part the embedded code
reads). -/
structure SystemSnapshot where
  id : String := ""
  timestamp : Int := 0
  kernelVersion : String := ""
  gpuDriver : Json := .null
  firmwareVersions : Json := .null
  keyPackages : Json := .null
  hostId : String := ""
  deriving Repr, DecidableEq

/-- One entry of `KhronicleDiff::changedFields` from `common/models.hpp`. -/
structure ChangedField where
  path : String
  before : Json
  after : Json
  deriving Repr, DecidableEq

/-- `KhronicleDiff` from `common/models.hpp`. -/
structure KhronicleDiff where
  snapshotAId : String := ""
  snapshotBId : String := ""
  changedFields : List ChangedField := []
  deriving Repr, DecidableEq

/-- `WatchRule` from `common/models.hpp`. -/
structure WatchRule where
  id : String := ""
  name : String := ""
  description : String := ""
  scope : WatchScope := .Event
  severity : WatchSeverity := .Info
  enabled : Bool := true
  categoryEquals : String := ""
  riskLevelAtLeast : String := ""
  packageNameContains : String := ""
  activeFrom : String := ""
  activeTo : String := ""
  extra : Json := .null
  deriving Repr, DecidableEq

/-- `WatchSignal` from `common/models.hpp`. -/
structure WatchSignal where
  id : String := ""
  timestamp : Int := 0
  ruleId : String := ""
  ruleName : String := ""
  severity : WatchSeverity := .Info
  originType : String := ""
  originId : String := ""
  message : String := ""
  deriving Repr, DecidableEq

/-- `toCategoryString` from `common/json_utils.hpp`. -/
def toCategoryString : EventCategory → String
  | .Kernel => "kernel"
  | .GpuDriver => "gpu_driver"
  | .Firmware => "firmware"
  | .Package => "package"
  | .System => "system"

/-! ## Risk classifier (`daemon/risk_classifier.cpp`) -/

/-- `severityRank` from `risk_classifier.cpp`. -/
def severityRank (level : String) : Int :=
  if level = "critical" then 2
  else if level = "important" then 1
  else 0

/-- `updateRisk` from `risk_classifier.cpp`: raise the event's risk to
`level` if strictly higher, and append `reason` when `level` ties the
(possibly just-raised) current level. -/
def updateRisk (e : KhronicleEvent) (level reason : String) : KhronicleEvent :=
  let e :=
    if severityRank level > severityRank e.riskLevel then
      { e with riskLevel := level, riskReason := "" }
    else e
  if severityRank level = severityRank e.riskLevel then
    if !reason.isEmpty then
      let rr := (if !e.riskReason.isEmpty then e.riskReason ++ " " else e.riskReason)
        ++ reason
      let rr := if !rr.isEmpty && rr.data.getLast? != some '.' then rr ++ "." else rr
      { e with riskReason := rr }
    else e
  else e

/-- `RiskClassifier::classify` from `risk_classifier.cpp` (the C++ mutates
the event in place; here the updated event is returned). -/
def classify (e0 : KhronicleEvent) : KhronicleEvent :=
  let e := { e0 with riskLevel := "info", riskReason := "" }
  let e := if e.category = .Kernel then
      updateRisk e "critical" "Kernel version changed" else e
  let e := if e.category = .GpuDriver then
      updateRisk e "important" "GPU driver updated" else e
  let e := if e.category = .Firmware then
      updateRisk e "important" "Firmware or microcode updated" else e
  let lowered := strLower e.summary
  if strContainsSub lowered "downgraded" then
    updateRisk e "important" "Package downgraded"
  else e

/-! ## Watch engine (`daemon/watch_engine.cpp`)

`withinActiveWindow` converts the artifact timestamp to local wall-clock
time with `localtime_r`; the time zone becomes an explicit parameter
`tzOffsetSeconds` (seconds east of UTC), so that the local minute-of-day
is `((t / 1000 + tzOffsetSeconds) mod 86400) / 60`. -/

/-- `riskRank` from `watch_engine.cpp` (case-insensitive). -/
def riskRank (risk : String) : Int :=
  let lowered := strLower risk
  if lowered = "critical" then 2
  else if lowered = "important" then 1
  else 0

/-- `extractRiskLevel` from `watch_engine.cpp`: the string value of an
object's `"riskLevel"` member, else `""`. -/
def extractRiskLevel (state : Json) : String :=
  if !state.isObject then ""
  else match state.find "riskLevel" with
    | some (.str s) => s
    | _ => ""

/-- `eventRiskLevel` from `watch_engine.cpp`: the risk-level string
embedded in `afterState`, falling back to `beforeState`. -/
def eventRiskLevel (event : KhronicleEvent) : String :=
  let risk := extractRiskLevel event.afterState
  if risk.isEmpty then extractRiskLevel event.beforeState else risk

/-- `std::stoi`: skip leading whitespace, optional sign, then digits;
`none` models the `std::invalid_argument` throw. -/
def stoiOpt (s : String) : Option Int :=
  let cs := s.data.dropWhile charIsSpace
  let signAndRest : Int × List Char :=
    match cs with
    | '+' :: r => (1, r)
    | '-' :: r => (-1, r)
    | _ => (1, cs)
  let digits := signAndRest.2.takeWhile Char.isDigit
  if digits.isEmpty then none
  else some (signAndRest.1 *
    digits.foldl (fun acc c => acc * 10 + (Int.ofNat (c.toNat - '0'.toNat))) 0)

/-- The `parseTime` lambda inside `WatchEngine::withinActiveWindow`:
an `"HH:MM"` string to minutes after midnight. -/
def parseTimeHHMM (value : String) : Option Int :=
  if value.data.length = 5 ∧ value.data.get? 2 = some ':' then
    match stoiOpt (strSubstr value 0 2), stoiOpt (strSubstr value 3 2) with
    | some hours, some minutes =>
      if 0 ≤ hours ∧ hours ≤ 23 ∧ 0 ≤ minutes ∧ minutes ≤ 59 then
        some (hours * 60 + minutes)
      else none
    | _, _ => none
  else none

/-- The local minute-of-day of timestamp `t` (epoch milliseconds) in a
zone `tzOffsetSeconds` east of UTC: the `tm_hour * 60 + tm_min` of
`localtime_r`. -/
def localMinutesOfDay (t tzOffsetSeconds : Int) : Int :=
  (Int.emod (Int.tdiv t 1000 + tzOffsetSeconds) 86400) / 60

/-- `WatchEngine::withinActiveWindow`: `true` when the rule may fire at
timestamp `t` — no window configured, an unparsable window, or `t`'s
local wall-clock time outside the (possibly midnight-wrapping)
`[activeFrom, activeTo)` maintenance window. -/
def withinActiveWindow (rule : WatchRule) (t tzOffsetSeconds : Int) : Bool :=
  if rule.activeFrom.isEmpty || rule.activeTo.isEmpty then true
  else
    match parseTimeHHMM rule.activeFrom, parseTimeHHMM rule.activeTo with
    | some startMinutes, some endMinutes =>
      let currentMinutes := localMinutesOfDay t tzOffsetSeconds
      let inWindow :=
        if startMinutes ≤ endMinutes then
          startMinutes ≤ currentMinutes && currentMinutes < endMinutes
        else
          startMinutes ≤ currentMinutes || currentMinutes < endMinutes
      !inWindow
    | _, _ => true

/-- `WatchEngine::ruleMatchesEvent`: all four predicate gates, in source
order. -/
def ruleMatchesEvent (rule : WatchRule) (event : KhronicleEvent)
    (tzOffsetSeconds : Int) : Bool :=
  if !withinActiveWindow rule event.timestamp tzOffsetSeconds then false
  else if !rule.categoryEquals.isEmpty &&
      strLower rule.categoryEquals != strLower (toCategoryString event.category) then
    false
  else if !rule.riskLevelAtLeast.isEmpty &&
      riskRank (eventRiskLevel event) < riskRank rule.riskLevelAtLeast then
    false
  else if !rule.packageNameContains.isEmpty &&
      !listContainsSubstring event.relatedPackages rule.packageNameContains then
    false
  else true

/-- `WatchEngine::ruleMatchesSnapshot`: the snapshot-scope variant of the
four gates. -/
def ruleMatchesSnapshot (rule : WatchRule) (snapshot : SystemSnapshot)
    (tzOffsetSeconds : Int) : Bool :=
  if !withinActiveWindow rule snapshot.timestamp tzOffsetSeconds then false
  else if !rule.categoryEquals.isEmpty &&
      !(let expected := strLower rule.categoryEquals
        if expected = "kernel" then !snapshot.kernelVersion.isEmpty
        else if expected = "gpu_driver" || expected = "gpu" then
          snapshot.gpuDriver.isObject && !snapshot.gpuDriver.objIsEmpty
        else if expected = "firmware" then
          snapshot.firmwareVersions.isObject && !snapshot.firmwareVersions.objIsEmpty
        else if expected = "package" then
          snapshot.keyPackages.isObject && !snapshot.keyPackages.objIsEmpty
        else if expected = "system" then true
        else false) then
    false
  else if !rule.riskLevelAtLeast.isEmpty &&
      riskRank (extractRiskLevel snapshot.keyPackages) < riskRank rule.riskLevelAtLeast then
    false
  else if !rule.packageNameContains.isEmpty &&
      !jsonKeysContainSubstring snapshot.keyPackages rule.packageNameContains then
    false
  else true

/-- The per-rule guard of `WatchEngine::evaluateEvent`: an enabled
event-scope rule whose predicates all pass fires a signal. -/
def eventRuleFires (rule : WatchRule) (event : KhronicleEvent)
    (tzOffsetSeconds : Int) : Bool :=
  rule.enabled && rule.scope == .Event && ruleMatchesEvent rule event tzOffsetSeconds

/-! ## Store (`daemon/khronicle_store.cpp`)

The SQLite database becomes an explicit `StoreState`: each table is a
list of rows in insertion order (SQLite `rowid` order).
`INSERT OR REPLACE` on a `PRIMARY KEY` column deletes any row with the
same key and appends the new row. `NULL`-able columns are `Option`s:
`bindOptionalText` stores `none` for the empty string and `bindJson`
stores `none` for a JSON `null`. -/

/-- `toEpochSeconds` from `khronicle_store.cpp`
(`duration_cast<seconds>` truncates toward zero). -/
def toEpochSeconds (t : Int) : Int := Int.tdiv t 1000

/-- `fromEpochSeconds` from `khronicle_store.cpp`. -/
def fromEpochSeconds (v : Int) : Int := v * 1000

/-- `bindOptionalText`: the empty string is stored as SQL `NULL`. -/
def bindOptionalText (s : String) : Option String :=
  if s.isEmpty then none else some s

/-- `bindJson`: a JSON `null` is stored as SQL `NULL`, anything else as
its dump. -/
def bindJson (j : Json) : Option Json :=
  if j = .null then none else some j

/-- `columnText`: a `NULL` column reads back as the empty string. -/
def columnText (c : Option String) : String := c.getD ""

/-- `columnJson`: a `NULL` (or unparsable) column reads back as an empty
object. -/
def columnJson (c : Option Json) : Json := c.getD (.obj [])

/-- A row of the `events` table (the `category`/`source` columns store
the integer codes of the enums; the cast/`categoryFromInt` round trip is
the identity on every value the code writes, so the enums appear
directly). -/
structure EventRow where
  id : String
  timestamp : Int
  category : EventCategory
  source : EventSource
  summary : String
  details : Option String
  beforeState : Option Json
  afterState : Option Json
  relatedPackages : Option Json
  hostId : String
  deriving Repr, DecidableEq

/-- A row of the `snapshots` table. -/
structure SnapshotRow where
  id : String
  timestamp : Int
  kernelVersion : String
  gpuDriver : Option Json
  firmwareVersions : Option Json
  keyPackages : Option Json
  hostId : String
  deriving Repr, DecidableEq

/-- A row of the `watch_signals` table. -/
structure WatchSignalRow where
  id : String
  timestamp : Int
  ruleId : String
  ruleName : String
  severity : WatchSeverity
  originType : String
  originId : String
  message : Option String
  deriving Repr, DecidableEq

/-- The state owned by `KhronicleStore`: the host identity generated at
first open plus one list per table. -/
structure StoreState where
  hostId : String := ""
  events : List EventRow := []
  snapshots : List SnapshotRow := []
  watchRules : List WatchRule := []
  watchSignals : List WatchSignalRow := []
  meta : List (String × String) := []
  deriving Repr, DecidableEq

namespace StoreState

/-- The row `KhronicleStore::addEvent` binds for `event`. -/
def eventRowOf (st : StoreState) (event : KhronicleEvent) : EventRow where
  id := event.id
  timestamp := toEpochSeconds event.timestamp
  category := event.category
  source := event.source
  summary := event.summary
  details := bindOptionalText event.details
  beforeState := bindJson event.beforeState
  afterState := bindJson event.afterState
  relatedPackages := bindJson (.arr (event.relatedPackages.map .str))
  hostId := if event.hostId.isEmpty then st.hostId else event.hostId

/-- `KhronicleStore::addEvent`: `INSERT OR REPLACE` by primary id. -/
def addEvent (st : StoreState) (event : KhronicleEvent) : StoreState :=
  { st with events :=
      st.events.filter (fun r => r.id ≠ event.id) ++ [st.eventRowOf event] }

/-- `KhronicleStore::addSnapshot`: `INSERT OR REPLACE` by primary id. -/
def addSnapshot (st : StoreState) (snapshot : SystemSnapshot) : StoreState :=
  let row : SnapshotRow :=
    { id := snapshot.id
      timestamp := toEpochSeconds snapshot.timestamp
      kernelVersion := snapshot.kernelVersion
      gpuDriver := bindJson snapshot.gpuDriver
      firmwareVersions := bindJson snapshot.firmwareVersions
      keyPackages := bindJson snapshot.keyPackages
      hostId := snapshot.hostId }
  { st with snapshots :=
      st.snapshots.filter (fun r => r.id ≠ snapshot.id) ++ [row] }

/-- `KhronicleStore::upsertWatchRule`: `INSERT OR REPLACE` by primary id. -/
def upsertWatchRule (st : StoreState) (rule : WatchRule) : StoreState :=
  { st with watchRules :=
      st.watchRules.filter (fun r => r.id ≠ rule.id) ++ [rule] }

/-- `KhronicleStore::deleteWatchRule`. -/
def deleteWatchRule (st : StoreState) (ruleId : String) : StoreState :=
  { st with watchRules := st.watchRules.filter (fun r => r.id ≠ ruleId) }

/-- `KhronicleStore::listWatchRules` (no `ORDER BY`: rowid order). -/
def listWatchRules (st : StoreState) : List WatchRule := st.watchRules

/-- `KhronicleStore::addWatchSignal`. -/
def addWatchSignal (st : StoreState) (signal : WatchSignal) : StoreState :=
  let row : WatchSignalRow :=
    { id := signal.id
      timestamp := toEpochSeconds signal.timestamp
      ruleId := signal.ruleId
      ruleName := signal.ruleName
      severity := signal.severity
      originType := signal.originType
      originId := signal.originId
      message := bindOptionalText signal.message }
  { st with watchSignals :=
      st.watchSignals.filter (fun r => r.id ≠ signal.id) ++ [row] }

/-- `KhronicleStore::getMeta`. -/
def getMeta (st : StoreState) (key : String) : Option String :=
  (st.meta.find? (fun p => p.1 == key)).map Prod.snd

/-- `KhronicleStore::setMeta`: `INSERT OR REPLACE` by key. -/
def setMeta (st : StoreState) (key value : String) : StoreState :=
  { st with meta := st.meta.filter (fun p => p.1 ≠ key) ++ [(key, value)] }

/-- How a `snapshots` row reads back through the `SELECT` used by
`getSnapshot` / `listSnapshots` / `getSnapshotBefore` / `getSnapshotAfter`
(the store identity replaces an empty `host_id`). -/
def snapshotOfRow (st : StoreState) (r : SnapshotRow) : SystemSnapshot where
  id := r.id
  timestamp := fromEpochSeconds r.timestamp
  kernelVersion := r.kernelVersion
  gpuDriver := columnJson r.gpuDriver
  firmwareVersions := columnJson r.firmwareVersions
  keyPackages := columnJson r.keyPackages
  hostId := if r.hostId.isEmpty then st.hostId else r.hostId

/-- `KhronicleStore::getSnapshot`: `WHERE id = ? LIMIT 1`. -/
def getSnapshot (st : StoreState) (id : String) : Option SystemSnapshot :=
  (st.snapshots.find? (fun r => r.id == id)).map st.snapshotOfRow

/-- `KhronicleStore::listSnapshots`: all rows, `ORDER BY timestamp ASC`. -/
def listSnapshots (st : StoreState) : List SystemSnapshot :=
  ((st.snapshots.mergeSort (fun a b => a.timestamp ≤ b.timestamp)).map
    st.snapshotOfRow)

/-- `KhronicleStore::getSnapshotBefore`:
`WHERE timestamp <= ? ORDER BY timestamp DESC LIMIT 1`. -/
def getSnapshotBefore (st : StoreState) (t : Int) : Option SystemSnapshot :=
  let qualifying := st.snapshots.filter (fun r => r.timestamp ≤ toEpochSeconds t)
  ((qualifying.mergeSort (fun a b => a.timestamp ≥ b.timestamp)).head?).map
    st.snapshotOfRow

/-- `KhronicleStore::getSnapshotAfter`:
`WHERE timestamp >= ? ORDER BY timestamp ASC LIMIT 1`. -/
def getSnapshotAfter (st : StoreState) (t : Int) : Option SystemSnapshot :=
  let qualifying := st.snapshots.filter (fun r => toEpochSeconds t ≤ r.timestamp)
  ((qualifying.mergeSort (fun a b => a.timestamp ≤ b.timestamp)).head?).map
    st.snapshotOfRow

/-- How an `events` row reads back through the `SELECT` used by
`getEventsSince` / `getEventsBetween`. -/
def eventOfRow (st : StoreState) (r : EventRow) : KhronicleEvent where
  id := r.id
  timestamp := fromEpochSeconds r.timestamp
  category := r.category
  source := r.source
  summary := r.summary
  details := columnText r.details
  beforeState := columnJson r.beforeState
  afterState := columnJson r.afterState
  relatedPackages :=
    match columnJson r.relatedPackages with
    | .arr elems => elems.filterMap (fun j => match j with
        | .str s => some s
        | _ => none)
    | _ => []
  hostId := if (columnText (some r.hostId)).isEmpty then st.hostId else r.hostId

/-- `KhronicleStore::getEventsSince`:
`WHERE timestamp >= ? ORDER BY timestamp ASC`. -/
def getEventsSince (st : StoreState) (since : Int) : List KhronicleEvent :=
  (((st.events.filter (fun r => toEpochSeconds since ≤ r.timestamp)).mergeSort
      (fun a b => a.timestamp ≤ b.timestamp)).map st.eventOfRow)

/-- `KhronicleStore::getEventsBetween`:
`WHERE timestamp >= ? AND timestamp <= ? ORDER BY timestamp ASC`. -/
def getEventsBetween (st : StoreState) (tFrom tTo : Int) : List KhronicleEvent :=
  (((st.events.filter (fun r =>
        toEpochSeconds tFrom ≤ r.timestamp ∧ r.timestamp ≤ toEpochSeconds tTo)).mergeSort
      (fun a b => a.timestamp ≤ b.timestamp)).map st.eventOfRow)

/-- How a `watch_signals` row reads back through `getWatchSignalsSince`. -/
def watchSignalOfRow (r : WatchSignalRow) : WatchSignal where
  id := r.id
  timestamp := fromEpochSeconds r.timestamp
  ruleId := r.ruleId
  ruleName := r.ruleName
  severity := r.severity
  originType := r.originType
  originId := r.originId
  message := columnText r.message

/-- `KhronicleStore::getWatchSignalsSince`:
`WHERE timestamp >= ? ORDER BY timestamp ASC`. -/
def getWatchSignalsSince (st : StoreState) (t : Int) : List WatchSignal :=
  (((st.watchSignals.filter (fun r => toEpochSeconds t ≤ r.timestamp)).mergeSort
      (fun a b => a.timestamp ≤ b.timestamp)).map watchSignalOfRow)

end StoreState

/-! ## Snapshot diff (`KhronicleStore::diffSnapshots`,
`daemon/counterfactual.cpp`) -/

/-- `std::set<std::string>::insert` on a sorted duplicate-free list. -/
def insertSortedKey (x : String) : List String → List String
  | [] => [x]
  | y :: ys =>
    if x < y then x :: y :: ys
    else if x = y then y :: ys
    else y :: insertSortedKey x ys

/-- The `std::set<std::string> keys` built in the diff code: all keys of
`a` then all keys of `b`, iterated in sorted order. -/
def keySetUnion (a b : List String) : List String :=
  (a ++ b).foldl (fun acc k => insertSortedKey k acc) []

/-- The `keyPackagesA` / `keyPackagesB` locals of the diff code: the
snapshot's `keyPackages` when it is an object, else an empty object. -/
def keyPackagesObj (s : SystemSnapshot) : Json :=
  if s.keyPackages.isObject then s.keyPackages else .obj []

/-- `keyPackages.contains(key) ? keyPackages.at(key) : json()`: a
missing key reads as JSON `null`. -/
def keyPackagesAt (s : SystemSnapshot) (key : String) : Json :=
  ((keyPackagesObj s).find key).getD .null

/-- The changed-field computation duplicated verbatim in
`KhronicleStore::diffSnapshots` and `computeCounterfactual`: whole-value
comparison of `kernelVersion`/`gpuDriver`/`firmwareVersions`, then a
key-by-key union comparison of `keyPackages` (a missing key reads as
JSON `null`). -/
def snapshotFieldDiff (sA sB : SystemSnapshot) : List ChangedField :=
  let kernelEntries : List ChangedField :=
    if sA.kernelVersion ≠ sB.kernelVersion then
      [⟨"kernelVersion", .str sA.kernelVersion, .str sB.kernelVersion⟩]
    else []
  let gpuEntries : List ChangedField :=
    if sA.gpuDriver ≠ sB.gpuDriver then
      [⟨"gpuDriver", sA.gpuDriver, sB.gpuDriver⟩]
    else []
  let firmwareEntries : List ChangedField :=
    if sA.firmwareVersions ≠ sB.firmwareVersions then
      [⟨"firmwareVersions", sA.firmwareVersions, sB.firmwareVersions⟩]
    else []
  let packageEntries : List ChangedField :=
    (keySetUnion (keyPackagesObj sA).keys (keyPackagesObj sB).keys).filterMap
      (fun key =>
        if keyPackagesAt sA key ≠ keyPackagesAt sB key then
          some ⟨"keyPackages." ++ key, keyPackagesAt sA key, keyPackagesAt sB key⟩
        else none)
  kernelEntries ++ gpuEntries ++ firmwareEntries ++ packageEntries

/-- `KhronicleStore::diffSnapshots`: unknown id on either side gives an
empty diff, not an error. -/
def StoreState.diffSnapshots (st : StoreState) (aId bId : String) : KhronicleDiff :=
  let base : KhronicleDiff := { snapshotAId := aId, snapshotBId := bId }
  match st.getSnapshot aId, st.getSnapshot bId with
  | some sA, some sB => { base with changedFields := snapshotFieldDiff sA sB }
  | _, _ => base

/-! ## Change explainer (`daemon/change_explainer.cpp`,
`daemon/counterfactual.cpp`) -/

/-- The highlight list join of `explainChange`: comma-separated with
`" and "` before the last element. -/
def highlightJoin : List String → String
  | [] => ""
  | [x] => x
  | [x, y] => x ++ " and " ++ y
  | x :: rest => x ++ ", " ++ highlightJoin rest

/-- `explainChange` from `change_explainer.cpp`. -/
def explainChange (diff : KhronicleDiff) (events : List KhronicleEvent) : String :=
  let kernelChange := diff.changedFields.any (fun f => f.path = "kernelVersion")
  let gpuChange := diff.changedFields.any (fun f => f.path = "gpuDriver")
  let firmwareChange := diff.changedFields.any (fun f => f.path = "firmwareVersions")
  let packageChanges :=
    (diff.changedFields.filter
      (fun f => listStartsWith "keyPackages.".data f.path.data)).length
  let sawKernelEvent := events.any (fun e => e.category = .Kernel)
  let sawGpuEvent := events.any (fun e => e.category = .GpuDriver)
  let sawFirmwareEvent := events.any (fun e => e.category = .Firmware)
  let highlights :=
    (if kernelChange || sawKernelEvent then ["kernel was upgraded"] else []) ++
    (if gpuChange || sawGpuEvent then ["GPU driver updated"] else []) ++
    (if firmwareChange || sawFirmwareEvent then ["firmware updated"] else []) ++
    (if packageChanges > 0 then ["key packages changed"] else [])
  if highlights.isEmpty then
    "No significant kernel, GPU, or firmware changes were detected during this interval."
  else
    "During this interval, the " ++ highlightJoin highlights ++
      ". These changes may explain differences in system behavior."

/-- `CounterfactualResult` from `daemon/counterfactual.hpp`. -/
structure CounterfactualResult where
  baselineSnapshotId : String := ""
  comparisonSnapshotId : String := ""
  diff : KhronicleDiff := {}
  explanationSummary : String := ""
  deriving Repr, DecidableEq

/-- `computeCounterfactual` from `counterfactual.cpp`. -/
def computeCounterfactual (baseline comparison : SystemSnapshot)
    (interveningEvents : List KhronicleEvent) : CounterfactualResult :=
  let diff : KhronicleDiff :=
    { snapshotAId := baseline.id
      snapshotBId := comparison.id
      changedFields := snapshotFieldDiff baseline comparison }
  { baselineSnapshotId := baseline.id
    comparisonSnapshotId := comparison.id
    diff := diff
    explanationSummary := explainChange diff interveningEvents }

/-! ## Calendar arithmetic

`mktime` / `timegm` turn a broken-down `std::tm` into seconds since the
epoch; their civil-calendar arithmetic is the standard days-from-civil
computation. `mktime` interprets the fields in the local zone, modelled
by an explicit `tzOffsetSeconds` (seconds east of UTC). -/

/-- Days from 1970-01-01 to the civil date `y-m-d` (proleptic
Gregorian). -/
def daysFromCivil (y m d : Int) : Int :=
  let y := y - (if m ≤ 2 then 1 else 0)
  let era := Int.tdiv (if 0 ≤ y then y else y - 399) 400
  let yoe := y - era * 400
  let doy := Int.tdiv (153 * (m + (if 2 < m then -3 else 9)) + 2) 5 + d - 1
  let doe := yoe * 365 + Int.tdiv yoe 4 - Int.tdiv yoe 100 + doy
  era * 146097 + doe - 719468

/-- `timegm`: broken-down UTC fields to seconds since the epoch. -/
def civilToEpochSeconds (y m d hh mi ss : Int) : Int :=
  daysFromCivil y m d * 86400 + hh * 3600 + mi * 60 + ss

/-- Read 1 to `maxN` leading digits (the behaviour of `std::get_time`
numeric conversions), returning the value and the rest. -/
def readDigitsUpTo (maxN : Nat) (cs : List Char) : Option (Nat × List Char) :=
  let digits := (cs.takeWhile Char.isDigit).take maxN
  if digits.isEmpty then none
  else some (digits.foldl (fun a c => a * 10 + (c.toNat - '0'.toNat)) 0,
    cs.drop digits.length)

/-- Consume one expected literal character. -/
def expectChar (c : Char) : List Char → Option (List Char)
  | x :: xs => if x = c then some xs else none
  | [] => none

/-! ## Package-log parser (`daemon/pacman_parser.cpp`)

The file system becomes an explicit parameter: `parsePacmanLog` takes
`Option String` — `none` models an open failure, `some content` the
file's bytes. -/

/-- `kMaxBytesPerRun` from `pacman_parser.cpp`: 5 MiB. -/
def kMaxBytesPerRun : Nat := 5 * 1024 * 1024

/-- `parseCursor` from `pacman_parser.cpp`: `std::stoll`, rejecting
negatives and unparsable strings. -/
def parseCursor (cursor : Option String) : Option Int :=
  match cursor with
  | none => none
  | some s =>
    match stoiOpt s with
    | none => none
    | some value => if value < 0 then none else some value

/-- The `std::get_time(&tm, "%Y-%m-%d %H:%M")` scan inside the pacman
parser's `parseTimestamp` (a space in the format skips whitespace). -/
def scanPacmanDateTime (cs : List Char) :
    Option (Nat × Nat × Nat × Nat × Nat) := do
  let (y, cs) ← readDigitsUpTo 4 cs
  let cs ← expectChar '-' cs
  let (mo, cs) ← readDigitsUpTo 2 cs
  let cs ← expectChar '-' cs
  let (d, cs) ← readDigitsUpTo 2 cs
  let cs := cs.dropWhile charIsSpace
  let (h, cs) ← readDigitsUpTo 2 cs
  let cs ← expectChar ':' cs
  let (mi, _) ← readDigitsUpTo 2 cs
  pure (y, mo, d, h, mi)

/-- `parseTimestamp` from `pacman_parser.cpp`: normalise `'T'` to a
space, scan `"%Y-%m-%d %H:%M"`, then `mktime` (local time, hence the
explicit zone offset); result in epoch milliseconds. -/
def parsePacmanTimestamp (raw : String) (tzOffsetSeconds : Int) : Option Int :=
  let normalized := raw.data.map (fun c => if c = 'T' then ' ' else c)
  match scanPacmanDateTime normalized with
  | none => none
  | some (y, mo, d, h, mi) =>
    let time := civilToEpochSeconds y mo d h mi 0 - tzOffsetSeconds
    if time = -1 then none else some (time * 1000)

/-- `ParsedLine` from `pacman_parser.cpp`. -/
structure ParsedLine where
  timestamp : String := ""
  operation : String := ""
  packageName : String := ""
  versionInfo : String := ""
  deriving Repr, DecidableEq

/-- `parseLine` from `pacman_parser.cpp`: split
`"[timestamp] [ALPM] <op> <package> (<versions>)"`. -/
def parseLine (line : String) : Option ParsedLine :=
  let alpmTag := " [ALPM] "
  if line.isEmpty || line.data.head? != some '[' then none
  else match strFindCharFrom line ']' 0 with
  | none => none
  | some tsEnd =>
    match strFindSubFrom line alpmTag tsEnd with
    | none => none
    | some alpmPos =>
      let opStart := alpmPos + alpmTag.length
      match strFindCharFrom line ' ' opStart with
      | none => none
      | some opEnd =>
        let operation := strSubstr line opStart (opEnd - opStart)
        if operation ≠ "installed" ∧ operation ≠ "upgraded" ∧
            operation ≠ "downgraded" then none
        else
          let pkgStart := opEnd + 1
          match strFindCharFrom line ' ' pkgStart with
          | none => none
          | some pkgEnd =>
            match strFindCharFrom line '(' pkgEnd with
            | none => none
            | some openParen =>
              match strFindCharFrom line ')' openParen with
              | none => none
              | some closeParen =>
                if closeParen ≤ openParen + 1 then none
                else some
                  { timestamp := strSubstr line 1 (tsEnd - 1)
                    operation := operation
                    packageName := strSubstr line pkgStart (pkgEnd - pkgStart)
                    versionInfo :=
                      strSubstr line (openParen + 1) (closeParen - openParen - 1) }

/-- `buildSummary` from `pacman_parser.cpp`. -/
def buildSummary (parsed : ParsedLine) (oldVersion newVersion : String) : String :=
  if parsed.operation = "installed" then
    parsed.operation ++ " " ++ parsed.packageName ++ " " ++ newVersion
  else if !oldVersion.isEmpty && !newVersion.isEmpty then
    parsed.operation ++ " " ++ parsed.packageName ++ " " ++ oldVersion
      ++ " -> " ++ newVersion
  else
    parsed.operation ++ " " ++ parsed.packageName

/-- `splitVersions` from `pacman_parser.cpp`. -/
def splitVersions (parsed : ParsedLine) : String × String :=
  if parsed.operation = "installed" then ("", strTrim parsed.versionInfo)
  else
    match strFindSubFrom parsed.versionInfo "->" 0 with
    | none => ("", strTrim parsed.versionInfo)
    | some pos =>
      (strTrim (strSubstr parsed.versionInfo 0 pos),
        strTrim (strSubstrFrom parsed.versionInfo (pos + 2)))

/-- The kernel-package allow-list of `categoryForPackage`. -/
def kernelPackages : List String :=
  ["linux", "linux-cachyos", "linux-zen", "linux-lts"]

/-- The GPU-driver allow-list of `categoryForPackage`. -/
def gpuDriverPackages : List String :=
  ["mesa", "mesa-git", "nvidia", "nvidia-dkms", "nvidia-utils",
   "vulkan-radeon", "vulkan-intel", "vulkan-nouveau",
   "xf86-video-amdgpu", "xf86-video-intel"]

/-- The firmware allow-list of `categoryForPackage`. -/
def firmwarePackages : List String :=
  ["linux-firmware", "amd-ucode", "intel-ucode"]

/-- `categoryForPackage` from `pacman_parser.cpp`. -/
def categoryForPackage (packageName : String) : EventCategory :=
  if packageName ∈ kernelPackages then .Kernel
  else if packageName ∈ gpuDriverPackages then .GpuDriver
  else if packageName ∈ firmwarePackages then .Firmware
  else .Package

/-- `isInterestingPackage` from `pacman_parser.cpp` (the union of the
three allow-lists). -/
def isInterestingPackage (packageName : String) : Bool :=
  packageName ∈ kernelPackages ++ gpuDriverPackages ++ firmwarePackages

/-- `PacmanParseResult` from `pacman_parser.hpp`. -/
structure PacmanParseResult where
  events : List KhronicleEvent := []
  newCursor : String := ""
  hadError : Bool := false
  deriving Repr, DecidableEq

/-- Split a character list at every `'\n'` (the separators dropped, like
`String.splitOn "\n"`). -/
def splitAtNl : List Char → List (List Char)
  | [] => [[]]
  | c :: rest =>
    if c = '\n' then [] :: splitAtNl rest
    else
      match splitAtNl rest with
      | [] => [[c]]
      | l :: ls => (c :: l) :: ls

/-- Does the string end in a newline? -/
def endsWithNl (s : String) : Bool :=
  s.data.getLast? == some '\n'

/-- `std::getline` over a whole stream: the maximal `'\n'`-free chunks;
a trailing newline does not produce an extra empty line. -/
def getlineSplit (s : String) : List String :=
  if s.isEmpty then []
  else if endsWithNl s then ((splitAtNl s.data).map String.mk).dropLast
  else (splitAtNl s.data).map String.mk

/-- The event `parsePacmanLog` builds for one accepted line. -/
def pacmanEventOf (parsed : ParsedLine) (line : String) (ts : Int) :
    KhronicleEvent :=
  let versions := splitVersions parsed
  let oldVersion := versions.1
  let newVersion := versions.2
  { id := "pacman-" ++ parsed.timestamp ++ "-" ++ parsed.packageName
      ++ "-" ++ parsed.operation
    timestamp := ts
    category := categoryForPackage parsed.packageName
    source := .Pacman
    summary := buildSummary parsed oldVersion newVersion
    details := line
    beforeState :=
      if !oldVersion.isEmpty then .obj [("version", .str oldVersion)] else .obj []
    afterState :=
      if !newVersion.isEmpty then .obj [("version", .str newVersion)] else .obj []
    relatedPackages := [parsed.packageName]
    riskLevel := "info"
    riskReason := "" }

/-- The `while (std::getline(...))` loop of `parsePacmanLog`. State:
remaining lines, whether the stream's text ends in a newline, the read
position, `bytesConsumed`, `lastPos` (`none` models `tellg() == -1` at
EOF) and the accumulated events. Returns events, final
`bytesConsumed`, final `lastPos`, and whether a `break` fired. -/
def pacmanLoop (tzOffsetSeconds : Int) :
    List String → Bool → Int → Nat → Option Int → List KhronicleEvent →
    (List KhronicleEvent × Nat × Option Int × Bool)
  | [], _, _, bytesConsumed, lastPos, acc =>
    (acc.reverse, bytesConsumed, lastPos, false)
  | line :: rest, endsNl, pos, bytesConsumed, _, acc =>
    let bytes := bytesConsumed + line.length + 1
    let newPos := pos + (line.length : Int) + 1
    let newLastPos : Option Int :=
      if rest.isEmpty ∧ ¬endsNl then none else some newPos
    match parseLine line with
    | none =>
      if kMaxBytesPerRun ≤ bytes then (acc.reverse, bytes, newLastPos, true)
      else pacmanLoop tzOffsetSeconds rest endsNl newPos bytes newLastPos acc
    | some parsed =>
      if !isInterestingPackage parsed.packageName then
        pacmanLoop tzOffsetSeconds rest endsNl newPos bytes newLastPos acc
      else
        match parsePacmanTimestamp parsed.timestamp tzOffsetSeconds with
        | none => pacmanLoop tzOffsetSeconds rest endsNl newPos bytes newLastPos acc
        | some ts =>
          let acc := pacmanEventOf parsed line ts :: acc
          if kMaxBytesPerRun ≤ bytes then (acc.reverse, bytes, newLastPos, true)
          else pacmanLoop tzOffsetSeconds rest endsNl newPos bytes newLastPos acc

/-- `parsePacmanLog` from `pacman_parser.cpp`. `file = none` is an open
failure; otherwise the cursor is clamped on detected
rotation/truncation, the capped getline loop runs, and the new cursor is
the final stream position (strings are ASCII, so byte offsets are
character offsets). -/
def parsePacmanLog (file : Option String) (previousCursor : Option String)
    (tzOffsetSeconds : Int) : PacmanParseResult :=
  match file with
  | none =>
    -- If the log can't be opened, keep the previous cursor.
    { newCursor := previousCursor.getD "0", hadError := true }
  | some content =>
    let fileSize : Int := content.length
    let startPos0 : Int := (parseCursor previousCursor).getD 0
    let startPos : Int :=
      if 0 < fileSize ∧ 0 < startPos0 ∧ fileSize < startPos0 then 0 else startPos0
    let tail := strSubstrFrom content startPos.toNat
    let endsNl := endsWithNl tail
    let res := pacmanLoop tzOffsetSeconds (getlineSplit tail) endsNl startPos 0
      (some startPos) []
    let events := res.1
    let bytesConsumed := res.2.1
    let lastPos := res.2.2.1
    let broke := res.2.2.2
    let endPos : Int := if broke then lastPos.getD fileSize else fileSize
    let cursorPos : Int :=
      if kMaxBytesPerRun ≤ bytesConsumed ∧ lastPos.isSome then lastPos.getD 0
      else endPos
    { events := events, newCursor := toString cursorPos, hadError := false }

/-- Civil date from days since 1970-01-01 (inverse of `daysFromCivil`). -/
def civilFromDays (z0 : Int) : Int × Int × Int :=
  let z := z0 + 719468
  let era := Int.tdiv (if 0 ≤ z then z else z - 146096) 146097
  let doe := z - era * 146097
  let yoe := Int.tdiv (doe - Int.tdiv doe 1460 + Int.tdiv doe 36524
    - Int.tdiv doe 146096) 365
  let y := yoe + era * 400
  let doy := doe - (365 * yoe + Int.tdiv yoe 4 - Int.tdiv yoe 100)
  let mp := Int.tdiv (5 * doy + 2) 153
  let d := doy - Int.tdiv (153 * mp + 2) 5 + 1
  let m := mp + (if mp < 10 then 3 else -9)
  (y + (if m ≤ 2 then 1 else 0), m, d)

/-- Zero-pad to two digits. -/
def pad2 (n : Int) : String :=
  if n < 10 then "0" ++ toString n else toString n

/-- Zero-pad to four digits. -/
def pad4 (n : Int) : String :=
  if n < 10 then "000" ++ toString n
  else if n < 100 then "00" ++ toString n
  else if n < 1000 then "0" ++ toString n
  else toString n

/-- Seconds since the epoch, formatted `"%Y-%m-%dT%H:%M:%SZ"`
(`gmtime` + `put_time` in `toIso8601Utc`, and likewise Qt's
`toString(Qt::ISODate)` on a UTC `QDateTime`). -/
def formatIso8601UtcSecs (secs : Int) : String :=
  let days := Int.fdiv secs 86400
  let sod := Int.emod secs 86400
  let ymd := civilFromDays days
  pad4 ymd.1 ++ "-" ++ pad2 ymd.2.1 ++ "-" ++ pad2 ymd.2.2
    ++ "T" ++ pad2 (sod / 3600) ++ ":" ++ pad2 ((sod % 3600) / 60)
    ++ ":" ++ pad2 (sod % 60) ++ "Z"

/-- `toIso8601Utc` from `common/json_utils.hpp` (epoch milliseconds to
`"%Y-%m-%dT%H:%M:%SZ"`; `to_time_t` truncates to seconds). -/
def toIso8601Utc (t : Int) : String :=
  formatIso8601UtcSecs (toEpochSeconds t)

/-! ## Journal parser (`daemon/journal_parser.cpp`)

`journalctl` output becomes an explicit `lines` parameter
(`parseJournalOutputLines` takes exactly that in the C++ too, for
testability). `QDateTime::fromString(_, Qt::ISODate)` with no zone
suffix yields local time, modelled by the explicit `tzOffsetSeconds`.
`std::hash<std::string>` is implementation-defined; it is modelled by
a fixed FNV-1a-style 64-bit hash. -/

/-- Read exactly `n` digits. -/
def readDigitsExact (n : Nat) (cs : List Char) : Option (Nat × List Char) :=
  let digits := cs.take n
  if digits.length = n ∧ digits.all Char.isDigit then
    some (digits.foldl (fun a c => a * 10 + (c.toNat - '0'.toNat)) 0, cs.drop n)
  else none

/-- The time-of-day part `HH:mm[:ss[.zzz]]` of a `Qt::ISODate` string:
hour, minute, second, millisecond. -/
def scanQtIsoTime (cs : List Char) :
    Option ((Nat × Nat × Nat × Nat) × List Char) := do
  let (h, cs) ← readDigitsExact 2 cs
  let cs ← expectChar ':' cs
  let (mi, cs) ← readDigitsExact 2 cs
  match expectChar ':' cs with
  | none => pure ((h, mi, 0, 0), cs)
  | some cs => do
    let (s, cs) ← readDigitsExact 2 cs
    match expectChar '.' cs with
    | none => pure ((h, mi, s, 0), cs)
    | some cs => do
      let (ms, cs) ← readDigitsExact 3 cs
      pure ((h, mi, s, ms), cs)

/-- The zone suffix of a `Qt::ISODate` string (`Z`, `±HH:mm`, `±HHmm` or
`±HH`), as an offset in seconds east of UTC. -/
def scanQtIsoZone (cs : List Char) : Option (Option Int × List Char) :=
  match cs with
  | [] => some (none, [])
  | 'Z' :: rest => some (some 0, rest)
  | c :: rest =>
    if c = '+' ∨ c = '-' then
      match readDigitsExact 2 rest with
      | none => none
      | some (h, rest) =>
        let signed : Int → Int := fun v => if c = '-' then -v else v
        match expectChar ':' rest with
        | some rest2 =>
          match readDigitsExact 2 rest2 with
          | none => none
          | some (m, rest3) => some (some (signed (h * 3600 + m * 60)), rest3)
        | none =>
          match readDigitsExact 2 rest with
          | some (m, rest2) => some (some (signed (h * 3600 + m * 60)), rest2)
          | none => some (some (signed (h * 3600)), rest)
    else none

/-- `QDateTime::fromString(value, Qt::ISODate).toMSecsSinceEpoch()`:
parse `yyyy-MM-dd[THH:mm[:ss[.zzz]]][zone]`; without a zone suffix the
fields are local time (`tzOffsetSeconds` east of UTC). `none` models an
invalid `QDateTime`. -/
def parseQtIsoDateTime (value : String) (tzOffsetSeconds : Int) : Option Int := do
  let cs := value.data
  let (y, cs) ← readDigitsExact 4 cs
  let cs ← expectChar '-' cs
  let (mo, cs) ← readDigitsExact 2 cs
  let cs ← expectChar '-' cs
  let (d, cs) ← readDigitsExact 2 cs
  if ¬(1 ≤ mo ∧ mo ≤ 12 ∧ 1 ≤ d ∧ d ≤ 31) then none
  else
    match cs with
    | [] => some ((civilToEpochSeconds y mo d 0 0 0 - tzOffsetSeconds) * 1000)
    | sep :: rest =>
      if sep ≠ 'T' ∧ sep ≠ ' ' then none
      else do
        let (hms, cs) ← scanQtIsoTime rest
        let (zone, cs) ← scanQtIsoZone cs
        if ¬cs.isEmpty then none
        else
          let offset := zone.getD tzOffsetSeconds
          some ((civilToEpochSeconds y mo d hms.1 hms.2.1 hms.2.2.1 - offset) * 1000
            + hms.2.2.2)

/-- Model of `std::hash<std::string>` (implementation-defined in C++):
FNV-1a over the bytes, 64-bit. -/
def strHash (s : String) : Nat :=
  s.data.foldl (fun h c => ((h ^^^ c.toNat) * 1099511628211) % 2 ^ 64)
    14695981039346656037

/-- `extractMessage` from `journal_parser.cpp`: the free-text message of
a `<timestamp> <hostname> <unit>: <message>` line. -/
def extractMessage (line : String) : String :=
  match strFindCharFrom line ' ' 0 with
  | none => ""
  | some firstSpace =>
    let remainder := strTrim (strSubstrFrom line (firstSpace + 1))
    match strFindCharFrom remainder ' ' 0 with
    | none => ""
    | some secondSpace =>
      let afterHost := strTrim (strSubstrFrom remainder (secondSpace + 1))
      match strFindSubFrom afterHost ": " 0 with
      | some colon => strTrim (strSubstrFrom afterHost (colon + 2))
      | none => afterHost

/-- `extractProcess` from `journal_parser.cpp`: the `<unit>` part of the
line, empty when there is no `": "` separator. -/
def extractProcess (line : String) : String :=
  match strFindCharFrom line ' ' 0 with
  | none => ""
  | some firstSpace =>
    let remainder := strTrim (strSubstrFrom line (firstSpace + 1))
    match strFindCharFrom remainder ' ' 0 with
    | none => ""
    | some secondSpace =>
      let afterHost := strTrim (strSubstrFrom remainder (secondSpace + 1))
      match strFindSubFrom afterHost ": " 0 with
      | some colon => strTrim (strSubstr afterHost 0 colon)
      | none => ""

/-- `extractVersionToken` from `journal_parser.cpp`: the
digit/dot/dash/underscore token following the word `"version"`. -/
def extractVersionToken (message : String) : String :=
  match strFindSubFrom (strLower message) "version" 0 with
  | none => ""
  | some index =>
    let start0 := index + 7
    let skipped := (message.data.drop start0).takeWhile charIsSpace |>.length
    let start := start0 + skipped
    let tok := (message.data.drop start).takeWhile
      (fun c => c.isDigit ∨ c = '.' ∨ c = '-' ∨ c = '_')
    strTrim (String.mk tok)

/-- `messageHasGpuSignal` from `journal_parser.cpp`. -/
def messageHasGpuSignal (message : String) : Bool :=
  let lower := strLower message
  strContainsSub lower "firmware" || strContainsSub lower "version"
    || strContainsSub lower "loading nvidia driver"

/-- `JournalParseResult` from `journal_parser.hpp`. -/
structure JournalParseResult where
  events : List KhronicleEvent := []
  lastTimestamp : Int := 0
  deriving Repr, DecidableEq

/-- Whether `parseJournalOutputLines` accepts a line: a parsable leading
timestamp and a firmware (fwupd) or GPU-driver signal. -/
def journalLineMatch (line : String) (tzOffsetSeconds : Int) :
    Option (Int × Bool × Bool) :=
  match strFindCharFrom line ' ' 0 with
  | none => none
  | some space =>
    let timestampText := strTrim (strSubstr line 0 space)
    match parseQtIsoDateTime timestampText tzOffsetSeconds with
    | none => none
    | some timestamp =>
      let processName := strLower (extractProcess line)
      let message := extractMessage line
      let lowerMessage := strLower message
      let isFwupd := strContainsSub processName "fwupd"
        || strContainsSub lowerMessage "firmware update installed"
        || strContainsSub lowerMessage "successfully installed firmware"
      let isAmd := strContainsSub lowerMessage "amdgpu"
      let isNvidia := strContainsSub lowerMessage "nvidia"
        || strContainsSub lowerMessage "nvidia-modeset"
        || strContainsSub lowerMessage "nvrm"
      if !isFwupd && !(messageHasGpuSignal message && (isAmd || isNvidia)) then
        none
      else some (timestamp, isFwupd, isAmd)

/-- The event `parseJournalOutputLines` builds for one accepted line. -/
def journalEventOf (line : String) (timestamp : Int) (isFwupd isAmd : Bool) :
    KhronicleEvent :=
  let message := extractMessage line
  let lowerMessage := strLower message
  let isoTimestamp := formatIso8601UtcSecs (Int.fdiv timestamp 1000)
  let base : KhronicleEvent :=
    { timestamp := timestamp
      source := .Journal
      beforeState := .obj []
      afterState := .obj []
      details := line }
  if isFwupd then
    let summary :=
      if strContainsSub lowerMessage "firmware update installed" then message
      else "Firmware updated via fwupd"
    let afterState : Json :=
      match strFindCharFrom message ':' 0 with
      | some colon =>
        if colon + 1 < message.length then
          let firmware := strTrim (strSubstrFrom message (colon + 1))
          if !firmware.isEmpty then .obj [("firmware", .str firmware)]
          else .obj []
        else .obj []
      | none => .obj []
    { base with
      category := .Firmware
      summary := summary
      relatedPackages := ["fwupd"]
      id := "journal-" ++ isoTimestamp ++ "-fwupd-" ++ toString (strHash line)
      afterState := afterState }
  else
    let version := extractVersionToken message
    let summary :=
      if isAmd then
        if !version.isEmpty then "amdgpu firmware version loaded"
        else "amdgpu firmware/version event"
      else "NVIDIA driver version loaded"
    { base with
      category := .GpuDriver
      relatedPackages := [if isAmd then "amdgpu" else "nvidia"]
      id := "journal-" ++ isoTimestamp ++ (if isAmd then "-amdgpu-" else "-nvidia-")
        ++ toString (strHash line)
      summary := summary
      afterState :=
        if !version.isEmpty then .obj [("version", .str version)] else .obj [] }

/-- One iteration of the `parseJournalOutputLines` loop: skip a
non-matching line; for a match, append the event and raise
`lastTimestamp` if the line's timestamp exceeds it. -/
def journalFoldStep (tzOffsetSeconds : Int) (result : JournalParseResult)
    (line : String) : JournalParseResult :=
  match journalLineMatch line tzOffsetSeconds with
  | none => result
  | some (timestamp, isFwupd, isAmd) =>
    { events := result.events ++ [journalEventOf line timestamp isFwupd isAmd]
      lastTimestamp :=
        if result.lastTimestamp < timestamp then timestamp
        else result.lastTimestamp }

/-- `parseJournalOutputLines` from `journal_parser.cpp`: one event per
matching line; `lastTimestamp` starts at `since` and is raised to the
maximum matched timestamp. -/
def parseJournalOutputLines (lines : List String) (since : Int)
    (tzOffsetSeconds : Int) : JournalParseResult :=
  lines.foldl (journalFoldStep tzOffsetSeconds)
    { events := [], lastTimestamp := since }

/-- `parseJournalSince` from `journal_parser.cpp`: `journalctl` output
becomes `Option (List String)`, where `none` models a failed or
non-zero-exit invocation — empty events, `lastTimestamp` unchanged. -/
def parseJournalSince (output : Option (List String)) (since : Int)
    (tzOffsetSeconds : Int) : JournalParseResult :=
  match output with
  | none => { events := [], lastTimestamp := since }
  | some lines => parseJournalOutputLines lines since tzOffsetSeconds

/-! ## `fromIso8601Utc` (`common/json_utils.hpp`) -/

/-- The `std::get_time(&tm, "%Y-%m-%dT%H:%M:%SZ")` scan inside
`fromIso8601Utc` (with libstdc++'s per-field range checks; literal
characters must match; trailing input is ignored). -/
def scanIso8601Utc (cs : List Char) :
    Option (Nat × Nat × Nat × Nat × Nat × Nat) := do
  let (y, cs) ← readDigitsUpTo 4 cs
  let cs ← expectChar '-' cs
  let (mo, cs) ← readDigitsUpTo 2 cs
  let cs ← expectChar '-' cs
  let (d, cs) ← readDigitsUpTo 2 cs
  let cs ← expectChar 'T' cs
  let (h, cs) ← readDigitsUpTo 2 cs
  let cs ← expectChar ':' cs
  let (mi, cs) ← readDigitsUpTo 2 cs
  let cs ← expectChar ':' cs
  let (s, cs) ← readDigitsUpTo 2 cs
  let _ ← expectChar 'Z' cs
  if 1 ≤ mo ∧ mo ≤ 12 ∧ 1 ≤ d ∧ d ≤ 31 ∧ h ≤ 23 ∧ mi ≤ 59 ∧ s ≤ 60 then
    pure (y, mo, d, h, mi, s)
  else none

/-- `fromIso8601Utc` from `common/json_utils.hpp`. A parse failure (and a
`timegm` result of `-1`) yields a default-constructed time point, i.e.
`0` — the same value the epoch itself parses to. Result in epoch
milliseconds. -/
def fromIso8601Utc (value : String) : Int :=
  match scanIso8601Utc value.data with
  | none => 0
  | some (y, mo, d, h, mi, s) =>
    let time := civilToEpochSeconds y mo d h mi s
    if time = -1 then 0 else time * 1000

/-! ## API server (`daemon/khronicle_api_server.cpp`)

`handleRequest` becomes a pure function of the store state and the
parsed request payload (`none` models an unparsable JSON payload). The
socket write is the returned `ApiResponse`; result payloads keep their
structured contents rather than their JSON serialisation. The
`catch (std::exception)` wrapper, reached when a parameter has the wrong
JSON type (`nlohmann` throws from `params.value`), is the `exn`
response, its implementation-defined `what()` text elided. -/

/-- The structured content of a successful API response, one constructor
per dispatcher branch. -/
inductive ApiResult where
  | changesSince (events : List KhronicleEvent)
  | changesBetween (events : List KhronicleEvent)
  | snapshots (snapshots : List SystemSnapshot)
  | snapshot (s : SystemSnapshot)
  | diff (d : KhronicleDiff)
  | summary (kernelChanged : Bool) (kernelFrom kernelTo : String)
      (gpuEvents firmwareEvents totalEvents : Int)
  | watchRules (rules : List WatchRule)
  | okTrue
  | watchSignals (signals : List WatchSignal)
  | explain (res : CounterfactualResult)
  | lastGood (res : CounterfactualResult)
  deriving Repr, DecidableEq

/-- A response written back to the client: `{result, id}`, `{error, id}`
or the catch-all exception path. -/
inductive ApiResponse where
  | ok (result : ApiResult) (id : Int)
  | err (message : String) (id : Int)
  | exn (id : Int)
  deriving Repr, DecidableEq

/-- `params.value(key, "")`: missing key gives the default `""`; a
present non-string value makes `nlohmann` throw (`none`). -/
def jsonValueString (j : Json) (key : String) : Option String :=
  match j.find key with
  | none => some ""
  | some (.str s) => some s
  | some _ => none

/-- `extractKernelVersion` from `khronicle_api_server.cpp`. -/
def extractKernelVersion (state : Json) : Option String :=
  if !state.isObject then none
  else match state.find "kernelVersion" with
    | some (.str s) => some s
    | _ => none

/-- `latestSnapshot` from `khronicle_api_server.cpp`
(`std::max_element` by timestamp keeps the first maximum). -/
def latestSnapshotOf (snapshots : List SystemSnapshot) : Option SystemSnapshot :=
  match snapshots with
  | [] => none
  | first :: rest =>
    some (rest.foldl (fun best s => if best.timestamp < s.timestamp then s else best)
      first)

/-- Modelled from the spec: the `WatchRule` JSON deserialiser used by
`params["rule"].get<WatchRule>()` in the `upsert_watch_rule` branch. The
repository snapshot has no `from_json` overload for `WatchRule` under
`src/`; this follows the spec's WatchRule data model (string-tagged
scope/severity, absent fields defaulting like the other `from_json`
overloads in `common/json_utils.hpp`). -/
def watchRuleFromJson (j : Json) : WatchRule where
  id := (jsonValueString j "id").getD ""
  name := (jsonValueString j "name").getD ""
  description := (jsonValueString j "description").getD ""
  scope :=
    match j.find "scope" with
    | some (.str "snapshot") => .Snapshot
    | _ => .Event
  severity :=
    match j.find "severity" with
    | some (.str "warning") => .Warning
    | some (.str "critical") => .Critical
    | _ => .Info
  enabled :=
    match j.find "enabled" with
    | some (.bool b) => b
    | _ => true
  categoryEquals := (jsonValueString j "categoryEquals").getD ""
  riskLevelAtLeast := (jsonValueString j "riskLevelAtLeast").getD ""
  packageNameContains := (jsonValueString j "packageNameContains").getD ""
  activeFrom := (jsonValueString j "activeFrom").getD ""
  activeTo := (jsonValueString j "activeTo").getD ""
  extra := (j.find "extra").getD .null

/-- The `summary_since` aggregation loop over the matching events. -/
def summarizeEvents (events : List KhronicleEvent) :
    Bool × String × String × Int × Int :=
  events.foldl
    (fun acc event =>
      let (kernelChanged, kernelFrom, kernelTo, gpuEvents, firmwareEvents) := acc
      match event.category with
      | .Kernel =>
        let kernelFrom :=
          if kernelFrom.isEmpty then
            (extractKernelVersion event.beforeState).getD kernelFrom
          else kernelFrom
        let kernelTo := (extractKernelVersion event.afterState).getD kernelTo
        (true, kernelFrom, kernelTo, gpuEvents, firmwareEvents)
      | .GpuDriver => (kernelChanged, kernelFrom, kernelTo, gpuEvents + 1, firmwareEvents)
      | .Firmware => (kernelChanged, kernelFrom, kernelTo, gpuEvents, firmwareEvents + 1)
      | _ => acc)
    (false, "", "", 0, 0)

/-- The method dispatch chain of `KhronicleApiServer::handleRequest`,
after id/method/params validation. Returns the response and the
(possibly updated, for the two write methods) store state. -/
def dispatchMethod (st : StoreState) (method : String) (params : Json)
    (id : Int) : ApiResponse × StoreState :=
  if method = "get_changes_since" then
    match jsonValueString params "since" with
    | none => (.exn id, st)
    | some sinceValue =>
      let since := fromIso8601Utc sinceValue
      if since = 0 then (.err "Invalid since timestamp" id, st)
      else (.ok (.changesSince (st.getEventsSince since)) id, st)
  else if method = "get_changes_between" then
    match jsonValueString params "from", jsonValueString params "to" with
    | some fromValue, some toValue =>
      let tFrom := fromIso8601Utc fromValue
      let tTo := fromIso8601Utc toValue
      if tFrom = 0 ∨ tTo = 0 then (.err "Invalid from/to timestamp" id, st)
      else (.ok (.changesBetween (st.getEventsBetween tFrom tTo)) id, st)
    | _, _ => (.exn id, st)
  else if method = "list_snapshots" then
    (.ok (.snapshots st.listSnapshots) id, st)
  else if method = "get_snapshot" then
    match jsonValueString params "id" with
    | none => (.exn id, st)
    | some snapshotId =>
      if snapshotId.isEmpty then (.err "Missing snapshot id" id, st)
      else
        match st.getSnapshot snapshotId with
        | none => (.err "Snapshot not found" id, st)
        | some snapshot => (.ok (.snapshot snapshot) id, st)
  else if method = "diff_snapshots" then
    match jsonValueString params "a", jsonValueString params "b" with
    | some aId, some bId =>
      if aId.isEmpty ∨ bId.isEmpty then (.err "Missing snapshot ids" id, st)
      else (.ok (.diff (st.diffSnapshots aId bId)) id, st)
    | _, _ => (.exn id, st)
  else if method = "summary_since" then
    match jsonValueString params "since" with
    | none => (.exn id, st)
    | some sinceValue =>
      let since := fromIso8601Utc sinceValue
      if since = 0 then (.err "Invalid since timestamp" id, st)
      else
        let events := st.getEventsSince since
        let s := summarizeEvents events
        (.ok (.summary s.1 s.2.1 s.2.2.1 s.2.2.2.1 s.2.2.2.2
          (events.length : Int)) id, st)
  else if method = "list_watch_rules" then
    (.ok (.watchRules st.listWatchRules) id, st)
  else if method = "upsert_watch_rule" then
    match params.find "rule" with
    | some rule =>
      if !rule.isObject then (.err "Missing rule object" id, st)
      else
        let parsedRule := watchRuleFromJson rule
        if parsedRule.id.isEmpty then (.err "Missing rule id" id, st)
        else (.ok .okTrue id, st.upsertWatchRule parsedRule)
    | none => (.err "Missing rule object" id, st)
  else if method = "delete_watch_rule" then
    match jsonValueString params "id" with
    | none => (.exn id, st)
    | some ruleId =>
      if ruleId.isEmpty then (.err "Missing rule id" id, st)
      else (.ok .okTrue id, st.deleteWatchRule ruleId)
  else if method = "get_watch_signals_since" then
    match jsonValueString params "since" with
    | none => (.exn id, st)
    | some sinceValue =>
      let since := fromIso8601Utc sinceValue
      if since = 0 then (.err "Invalid since timestamp" id, st)
      else (.ok (.watchSignals (st.getWatchSignalsSince since)) id, st)
  else if method = "explain_change_between" then
    match jsonValueString params "from", jsonValueString params "to" with
    | some fromValue, some toValue =>
      let tFrom := fromIso8601Utc fromValue
      let tTo := fromIso8601Utc toValue
      if tFrom = 0 ∨ tTo = 0 then (.err "Invalid from/to timestamp" id, st)
      else
        match st.getSnapshotBefore tFrom, st.getSnapshotAfter tTo with
        | some baseline, some comparison =>
          let events := st.getEventsBetween tFrom tTo
          (.ok (.explain (computeCounterfactual baseline comparison events)) id, st)
        | _, _ => (.err "Snapshots not found" id, st)
    | _, _ => (.exn id, st)
  else if method = "what_changed_since_last_good" then
    match jsonValueString params "referenceSnapshotId" with
    | none => (.exn id, st)
    | some referenceId =>
      if referenceId.isEmpty then (.err "Missing referenceSnapshotId" id, st)
      else
        match st.getSnapshot referenceId, latestSnapshotOf st.listSnapshots with
        | some baseline, some latest =>
          let events := st.getEventsBetween baseline.timestamp latest.timestamp
          (.ok (.lastGood (computeCounterfactual baseline latest events)) id, st)
        | _, _ => (.err "Snapshots not found" id, st)
  else (.err "Unknown method" id, st)

/-- `KhronicleApiServer::handleRequest`: payload validation (`none`
models JSON the parser discarded), id/method/params extraction, then the
method dispatch chain. -/
def handleRequest (st : StoreState) (payload : Option Json) :
    ApiResponse × StoreState :=
  match payload with
  | none => (.err "Invalid JSON payload" (-1), st)
  | some parsed =>
    if !parsed.isObject then (.err "Invalid JSON payload" (-1), st)
    else
      let id : Int :=
        match parsed.find "id" with
        | some (.num n) => n
        | _ => -1
      match parsed.find "method" with
      | some (.str method) =>
        (match parsed.find "params" with
          | some p =>
            if !p.isObject then (.err "Invalid params" id, st)
            else dispatchMethod st method p id
          | none => dispatchMethod st method (.obj []) id)
      | _ => (.err "Missing method" id, st)

/-! ## Daemon orchestrator (`daemon/khronicle_daemon.cpp`)

`runIngestionCycle` becomes a pure step function on `DaemonState` with
the external world in a `CycleEnv`: the pacman log's contents (`none`
for an open failure), the `journalctl` invocation's output lines
(`none` for a failed invocation), the snapshot `buildCurrentSnapshot`
would assemble, the time zone, whether the watch engine's 60-second
rules-cache interval has elapsed, and the `KHRONICLE_REPLAY_NO_SNAPSHOT`
flag. The random UUIDs of watch signals come from a counter-backed
supply in the state. Each cycle also returns a trace of the actions it
performed, in order. -/

/-- The external inputs of one ingestion cycle. -/
structure CycleEnv where
  pacmanLog : Option String := none
  journalOutput : Option (List String) := none
  currentSnapshot : SystemSnapshot := {}
  tzOffsetSeconds : Int := 0
  reloadRulesDue : Bool := false
  replayNoSnapshot : Bool := false
  deriving Repr, DecidableEq

/-- The orchestrator's state: the store, the resume positions, the
cached last snapshot, and the watch engine's rules cache plus UUID
supply. -/
structure DaemonState where
  store : StoreState := {}
  pacmanCursor : Option String := none
  journalLastTimestamp : Int := 0
  lastSnapshot : Option SystemSnapshot := none
  rulesCache : List WatchRule := []
  uuidCounter : Nat := 0
  deriving Repr, DecidableEq

/-- One observable action of an ingestion cycle. A `pacmanAttempt` /
`journalAttempt` records that the cycle invoked that source's parser
(with whether the attempt failed). -/
inductive CycleAction where
  | pacmanAttempt (hadError : Bool)
  | journalAttempt (failed : Bool)
  | snapshotCheck
  | persistMeta
  deriving Repr, DecidableEq

/-- Stand-in for `generateUuid` (random in the C++): an injective
counter-backed supply. -/
def generateUuidModel (n : Nat) : String := "uuid-" ++ toString n

/-- `WatchEngine::maybeReloadRules`: reload from the store when the
cache is empty or the reload interval has elapsed. -/
def maybeReloadRules (st : DaemonState) (reloadDue : Bool) : DaemonState :=
  if !st.rulesCache.isEmpty ∧ ¬reloadDue then st
  else { st with rulesCache := st.store.listWatchRules }

/-- `WatchEngine::evaluateEvent`: persist a `WatchSignal` for every
enabled event-scope rule that matches. -/
def evaluateEvent (env : CycleEnv) (st0 : DaemonState)
    (event : KhronicleEvent) : DaemonState :=
  let st := maybeReloadRules st0 env.reloadRulesDue
  st.rulesCache.foldl
    (fun st rule =>
      if !(rule.enabled && rule.scope == .Event) then st
      else if !ruleMatchesEvent rule event env.tzOffsetSeconds then st
      else
        let signal : WatchSignal :=
          { id := generateUuidModel st.uuidCounter
            timestamp := event.timestamp
            ruleId := rule.id
            ruleName := rule.name
            severity := rule.severity
            originType := "event"
            originId := event.id
            message := "Rule '" ++ rule.name ++ "' matched event"
              ++ (if !rule.categoryEquals.isEmpty then
                    " category '" ++ rule.categoryEquals ++ "'"
                  else "") }
        { st with
          store := st.store.addWatchSignal signal
          uuidCounter := st.uuidCounter + 1 })
    st

/-- `WatchEngine::evaluateSnapshot`: the snapshot-scope counterpart. -/
def evaluateSnapshot (env : CycleEnv) (st0 : DaemonState)
    (snapshot : SystemSnapshot) : DaemonState :=
  let st := maybeReloadRules st0 env.reloadRulesDue
  st.rulesCache.foldl
    (fun st rule =>
      if !(rule.enabled && rule.scope == .Snapshot) then st
      else if !ruleMatchesSnapshot rule snapshot env.tzOffsetSeconds then st
      else
        let signal : WatchSignal :=
          { id := generateUuidModel st.uuidCounter
            timestamp := snapshot.timestamp
            ruleId := rule.id
            ruleName := rule.name
            severity := rule.severity
            originType := "snapshot"
            originId := snapshot.id
            message := "Rule '" ++ rule.name ++ "' matched snapshot"
              ++ (if !rule.categoryEquals.isEmpty then
                    " category '" ++ rule.categoryEquals ++ "'"
                  else "") }
        { st with
          store := st.store.addWatchSignal signal
          uuidCounter := st.uuidCounter + 1 })
    st

/-- `KhronicleDaemon::runPacmanIngestion`: parse from the cursor, stamp
the host id, persist and evaluate every event, then advance the cursor
when the parser returned one. -/
def runPacmanIngestion (env : CycleEnv) (st : DaemonState) :
    DaemonState × CycleAction :=
  let result := parsePacmanLog env.pacmanLog st.pacmanCursor env.tzOffsetSeconds
  let hostId := st.store.hostId
  let st := result.events.foldl
    (fun st event0 =>
      let event := { event0 with hostId := hostId }
      let st := { st with store := st.store.addEvent event }
      evaluateEvent env st event)
    st
  let st :=
    if !result.newCursor.isEmpty then { st with pacmanCursor := some result.newCursor }
    else st
  (st, .pacmanAttempt result.hadError)

/-- `KhronicleDaemon::runJournalIngestion`: parse since the watermark,
persist and evaluate every event, then raise the watermark if the parse
returned a later timestamp. -/
def runJournalIngestion (env : CycleEnv) (st : DaemonState) :
    DaemonState × CycleAction :=
  let result := parseJournalSince env.journalOutput st.journalLastTimestamp
    env.tzOffsetSeconds
  let hostId := st.store.hostId
  let st := result.events.foldl
    (fun st event0 =>
      let event := { event0 with hostId := hostId }
      let st := { st with store := st.store.addEvent event }
      evaluateEvent env st event)
    st
  let st :=
    if st.journalLastTimestamp < result.lastTimestamp then
      { st with journalLastTimestamp := result.lastTimestamp }
    else st
  (st, .journalAttempt env.journalOutput.isNone)

/-- `detectKernelPackage` from `khronicle_daemon.cpp`. -/
def detectKernelPackage (snapshot : SystemSnapshot) : String :=
  let candidates := ["linux-cachyos", "linux", "linux-zen", "linux-lts"]
  match candidates.find? (fun name => snapshot.keyPackages.containsKey name) with
  | some name => name
  | none => "linux"

/-- The synthesized kernel-change event of
`KhronicleDaemon::runSnapshotCheck`. -/
def kernelChangeEventOf (lastSnapshot current : SystemSnapshot) :
    KhronicleEvent where
  id := "kernel-change-" ++ toString current.timestamp
  timestamp := current.timestamp
  category := .Kernel
  source := .Uname
  summary := "Kernel changed: " ++ lastSnapshot.kernelVersion ++ " -> "
    ++ current.kernelVersion
  details := "Kernel version changed from " ++ lastSnapshot.kernelVersion
    ++ " to " ++ current.kernelVersion
  beforeState := .obj [("kernelVersion", .str lastSnapshot.kernelVersion)]
  afterState := .obj [("kernelVersion", .str current.kernelVersion)]
  relatedPackages := [detectKernelPackage current]
  hostId := current.hostId

/-- `KhronicleDaemon::runSnapshotCheck`: skip in replay mode; accept the
first snapshot unconditionally as baseline; otherwise persist a new
snapshot and synthesize a kernel-change event only when the kernel
version differs from the cached one. -/
def runSnapshotCheck (env : CycleEnv) (st : DaemonState) :
    DaemonState × CycleAction :=
  if env.replayNoSnapshot then (st, .snapshotCheck)
  else
    let current := { env.currentSnapshot with hostId := st.store.hostId }
    match st.lastSnapshot with
    | none =>
      let st := { st with store := st.store.addSnapshot current }
      let st := evaluateSnapshot env st current
      ({ st with lastSnapshot := some current }, .snapshotCheck)
    | some lastSnapshot =>
      if lastSnapshot.kernelVersion = current.kernelVersion then
        (st, .snapshotCheck)
      else
        let st := { st with store := st.store.addSnapshot current }
        let st := evaluateSnapshot env st current
        let event := kernelChangeEventOf lastSnapshot current
        let st := { st with store := st.store.addEvent event }
        let st := evaluateEvent env st event
        ({ st with lastSnapshot := some current }, .snapshotCheck)

/-- `KhronicleDaemon::persistStateToMeta`. -/
def persistStateToMeta (st : DaemonState) : DaemonState :=
  let st :=
    match st.pacmanCursor with
    | some cursor => { st with store := st.store.setMeta "pacman_last_cursor" cursor }
    | none => st
  let watermarkIso := toIso8601Utc st.journalLastTimestamp
  { st with store := st.store.setMeta "journal_last_timestamp" watermarkIso }

/-- `KhronicleDaemon::runIngestionCycle`: pacman ingestion, then journal
ingestion, then the snapshot check, then meta persistence — each step
taken unconditionally, with the actions traced in order. -/
def runIngestionCycle (env : CycleEnv) (st : DaemonState) :
    DaemonState × List CycleAction :=
  let pacman := runPacmanIngestion env st
  let journal := runJournalIngestion env pacman.1
  let snapshot := runSnapshotCheck env journal.1
  let st := persistStateToMeta snapshot.1
  (st, [pacman.2, journal.2, snapshot.2, .persistMeta])

/-- The environment of the C4 counterexample: both sources fail every
cycle (unopenable pacman log, failed `journalctl`), snapshots disabled. -/
def failingEnv : CycleEnv :=
  { pacmanLog := none, journalOutput := none, replayNoSnapshot := true }

/-- Spec-side definition for C8: membership of a minute-of-day in the
`[activeFrom, activeTo)` maintenance window, which may wrap past
midnight. -/
def inMaintenanceWindow (startMinutes endMinutes current : Int) : Bool :=
  if startMinutes ≤ endMinutes then startMinutes ≤ current && current < endMinutes
  else startMinutes ≤ current || current < endMinutes

/-- A concrete event for the C3 witness (prior risk values present). -/
def classifyWitnessEventA : KhronicleEvent :=
  { category := .Kernel, summary := "upgraded linux",
    riskLevel := "info", riskReason := "old" }

/-- A second C3 witness event: same category and summary, different
prior risk values. -/
def classifyWitnessEventB : KhronicleEvent :=
  { category := .Kernel, summary := "upgraded linux",
    riskLevel := "important", riskReason := "other" }

/-- The end-to-end pacman log line of C5. -/
def c5LogLine : String :=
  "[2026-02-04T12:00] [ALPM] upgraded linux-cachyos (6.1-1 -> 6.1-2)"

/-- The split of the C5 log line. -/
def c5Parsed : ParsedLine where
  timestamp := "2026-02-04T12:00"
  operation := "upgraded"
  packageName := "linux-cachyos"
  versionInfo := "6.1-1 -> 6.1-2"

/-! ## Theorems settling the claims -/

/-- C9: for every previous cursor (and any time zone), when the package
log cannot be opened `parsePacmanLog` returns zero events and the
previous cursor unchanged (the absent cursor's canonical encoding is
`"0"`, byte offset zero) — the cursor never advances on open failure. -/
theorem pacman_open_failure_keeps_cursor (prev : Option String) (tz : Int) :
    (parsePacmanLog none prev tz).events = [] ∧
    (parsePacmanLog none prev tz).newCursor = prev.getD "0" ∧
    (parsePacmanLog none prev tz).hadError = true ∧
    ∀ s : String, (parsePacmanLog none (some s) tz).newCursor = s :=
  ⟨rfl, rfl, rfl, fun _ => rfl⟩

/-- C10: a request to any of the five timestamp-taking methods whose
timestamp parameter is exactly `"1970-01-01T00:00:00Z"` — which scans as
a well-formed `%Y-%m-%dT%H:%M:%SZ` timestamp denoting the epoch — gets
an invalid-timestamp error response, never a result, because the epoch
time point equals the server's sentinel for an unparsable timestamp. -/
theorem epoch_timestamp_rejected (st : StoreState) (rid : Int) :
    scanIso8601Utc "1970-01-01T00:00:00Z".data = some (1970, 1, 1, 0, 0, 0) ∧
    fromIso8601Utc "1970-01-01T00:00:00Z" = 0 ∧
    handleRequest st (some (.obj [("id", .num rid),
        ("method", .str "get_changes_since"),
        ("params", .obj [("since", .str "1970-01-01T00:00:00Z")])])) =
      (.err "Invalid since timestamp" rid, st) ∧
    handleRequest st (some (.obj [("id", .num rid),
        ("method", .str "get_changes_between"),
        ("params", .obj [("from", .str "1970-01-01T00:00:00Z"),
          ("to", .str "2026-02-04T12:00:00Z")])])) =
      (.err "Invalid from/to timestamp" rid, st) ∧
    handleRequest st (some (.obj [("id", .num rid),
        ("method", .str "summary_since"),
        ("params", .obj [("since", .str "1970-01-01T00:00:00Z")])])) =
      (.err "Invalid since timestamp" rid, st) ∧
    handleRequest st (some (.obj [("id", .num rid),
        ("method", .str "get_watch_signals_since"),
        ("params", .obj [("since", .str "1970-01-01T00:00:00Z")])])) =
      (.err "Invalid since timestamp" rid, st) ∧
    handleRequest st (some (.obj [("id", .num rid),
        ("method", .str "explain_change_between"),
        ("params", .obj [("from", .str "2026-02-04T12:00:00Z"),
          ("to", .str "1970-01-01T00:00:00Z")])])) =
      (.err "Invalid from/to timestamp" rid, st) :=
  ⟨rfl, rfl, rfl, rfl, rfl, rfl, rfl⟩

/-- Every snapshot-check branch reports the same action. -/
theorem runSnapshotCheck_action (env : CycleEnv) (st : DaemonState) :
    (runSnapshotCheck env st).2 = .snapshotCheck := by
  unfold runSnapshotCheck
  split
  · rfl
  · cases st.lastSnapshot with
    | none => rfl
    | some lastSnapshot =>
      simp only
      split <;> rfl

/-- C4 (counterexample): with both sources failing every cycle, the
daemon's first three cycles each attempt both sources and fail — yet the
fourth cycle still attempts both sources instead of skipping them: no
backoff counter exists in the daemon. -/
theorem no_backoff_counterexample :
    (runIngestionCycle failingEnv {}).2 =
      [.pacmanAttempt true, .journalAttempt true, .snapshotCheck, .persistMeta] ∧
    (runIngestionCycle failingEnv (runIngestionCycle failingEnv {}).1).2 =
      [.pacmanAttempt true, .journalAttempt true, .snapshotCheck, .persistMeta] ∧
    (runIngestionCycle failingEnv
        (runIngestionCycle failingEnv (runIngestionCycle failingEnv {}).1).1).2 =
      [.pacmanAttempt true, .journalAttempt true, .snapshotCheck, .persistMeta] ∧
    (runIngestionCycle failingEnv
        (runIngestionCycle failingEnv
          (runIngestionCycle failingEnv (runIngestionCycle failingEnv {}).1).1).1).2 =
      [.pacmanAttempt true, .journalAttempt true, .snapshotCheck, .persistMeta] := by
  decide

/-- C4 (amended): the daemon keeps no per-source error count and no
backoff: every ingestion cycle unconditionally attempts the package log
and the journal (recording whether the attempt failed), runs the
snapshot check and persists the resume state, regardless of the daemon
state and of any past failures. -/
theorem ingestion_cycle_never_skips_sources (env : CycleEnv) (st : DaemonState) :
    (runIngestionCycle env st).2 =
      [.pacmanAttempt
          (parsePacmanLog env.pacmanLog st.pacmanCursor env.tzOffsetSeconds).hadError,
        .journalAttempt env.journalOutput.isNone,
        .snapshotCheck, .persistMeta] := by
  show [_, _, (runSnapshotCheck env _).2, _] = _
  rw [runSnapshotCheck_action]
  rfl

/-- C2: event insertion is an idempotent insert-or-replace by primary
id: adding `e` and then any event `e2` with the same id leaves the store
exactly as adding `e2` alone (so adding the same event twice equals
adding it once, and a replay never duplicates rows), and after
`addEvent e` exactly one row carries `e.id` — the one holding `e`'s
values. -/
theorem addEvent_idempotent (st : StoreState) (e e2 : KhronicleEvent)
    (h : e2.id = e.id) :
    (st.addEvent e).addEvent e2 = st.addEvent e2 ∧
    (st.addEvent e).events.filter (fun r => r.id == e.id) = [st.eventRowOf e] := by
  have hp : (fun r : EventRow => decide (r.id ≠ e2.id)) =
      (fun r : EventRow => decide (r.id ≠ e.id)) := by
    funext r
    rw [h]
  constructor
  · simp only [StoreState.addEvent, StoreState.eventRowOf, List.filter_append,
      List.filter_filter, hp]
    congr 1
    simp [List.filter, Bool.and_self]
  · simp only [StoreState.addEvent, List.filter_append]
    have h1 : (st.events.filter (fun r => decide (r.id ≠ e.id))).filter
        (fun r => r.id == e.id) = [] := by
      rw [List.filter_filter]
      apply List.filter_eq_nil_iff.mpr
      intro a _
      by_cases hid : a.id = e.id <;> simp [hid]
    rw [h1]
    simp [StoreState.eventRowOf]

/-- C2 witness: the idempotence theorem applied at a concrete store and
two concrete events sharing an id. -/
theorem addEvent_idempotent_witness :
    (StoreState.addEvent (StoreState.addEvent {} { id := "e1", summary := "first" })
        { id := "e1", summary := "second" } =
      StoreState.addEvent {} { id := "e1", summary := "second" }) ∧
    (StoreState.addEvent {} { id := "e1", summary := "first" }).events.filter
        (fun r => r.id == ({ id := "e1", summary := "first" } : KhronicleEvent).id) =
      [StoreState.eventRowOf {} { id := "e1", summary := "first" }] :=
  addEvent_idempotent {} { id := "e1", summary := "first" }
    { id := "e1", summary := "second" } rfl

/-- A string that parses as an `"HH:MM"` time is not empty. -/
theorem parseTimeHHMM_ne_empty {s : String} {m : Int}
    (h : parseTimeHHMM s = some m) : s.isEmpty = false := by
  cases hs : s.isEmpty
  · rfl
  · exfalso
    have hnil : s = "" := (String.isEmpty_iff s).mp hs
    rw [hnil] at h
    exact Option.noConfusion ((rfl : parseTimeHHMM "" = none) ▸ h)

/-- C8: for a rule whose `activeFrom`/`activeTo` parse as valid local
`HH:MM` times, the active-window gate passes exactly when the artifact's
local wall-clock minute lies outside the (possibly midnight-wrapping)
`[activeFrom, activeTo)` maintenance window; a rule without a complete
window is always eligible. -/
theorem active_window_gate (rule : WatchRule) (t tz sm em : Int)
    (hFrom : parseTimeHHMM rule.activeFrom = some sm)
    (hTo : parseTimeHHMM rule.activeTo = some em) :
    withinActiveWindow rule t tz =
      !inMaintenanceWindow sm em (localMinutesOfDay t tz) ∧
    ∀ (r2 : WatchRule) (t2 tz2 : Int),
      (r2.activeFrom.isEmpty || r2.activeTo.isEmpty) = true →
      withinActiveWindow r2 t2 tz2 = true := by
  constructor
  · have h1 : (rule.activeFrom.isEmpty || rule.activeTo.isEmpty) = false := by
      rw [parseTimeHHMM_ne_empty hFrom, parseTimeHHMM_ne_empty hTo]
      rfl
    unfold withinActiveWindow
    rw [h1, hFrom, hTo]
    simp [inMaintenanceWindow]
  · intro r2 t2 tz2 hc
    unfold withinActiveWindow
    rw [hc]
    simp

/-- C8 witness: a rule with `activeFrom="02:00"`, `activeTo="04:00"` is
gated off for a 03:00-local artifact and eligible for a 05:00-local
artifact. -/
theorem active_window_gate_witness :
    withinActiveWindow { activeFrom := "02:00", activeTo := "04:00" } 10800000 0
      = false ∧
    withinActiveWindow { activeFrom := "02:00", activeTo := "04:00" } 18000000 0
      = true := by
  have h3 := (active_window_gate { activeFrom := "02:00", activeTo := "04:00" }
    10800000 0 120 240 rfl rfl).1
  have h5 := (active_window_gate { activeFrom := "02:00", activeTo := "04:00" }
    18000000 0 120 240 rfl rfl).1
  rw [h3, h5]
  decide

/-- C1 (counterexample): an enabled event-scope rule with only
`riskLevelAtLeast="critical"` set does NOT match an event whose risk
level is `"critical"` after classification: the watch engine reads the
risk embedded in `afterState`/`beforeState`, not the classified
`riskLevel` field, so a freshly classified kernel event (empty
`afterState`) ranks as info and fails the gate. -/
theorem risk_gate_counterexample :
    (classify { category := .Kernel, summary := "Kernel update" }).riskLevel
      = "critical" ∧
    ({ riskLevelAtLeast := "critical" } : WatchRule).enabled = true ∧
    ({ riskLevelAtLeast := "critical" } : WatchRule).scope = .Event ∧
    ({ riskLevelAtLeast := "critical" } : WatchRule).categoryEquals = "" ∧
    ({ riskLevelAtLeast := "critical" } : WatchRule).packageNameContains = "" ∧
    ({ riskLevelAtLeast := "critical" } : WatchRule).activeFrom = "" ∧
    eventRuleFires { riskLevelAtLeast := "critical" }
      (classify { category := .Kernel, summary := "Kernel update" }) 0 = false := by
  decide

/-- C1 (amended): for every enabled event-scope rule whose
`riskLevelAtLeast` is set and whose other predicates are absent, the
rule matches an event iff the rank of the risk level *embedded in the
event's `afterState`* (falling back to `beforeState`; absent ⇒ info) is
at least the rank of the threshold — the classified `riskLevel` field
plays no part. -/
theorem risk_gate_uses_embedded_risk (rule : WatchRule) (event : KhronicleEvent)
    (tz : Int)
    (hEnabled : rule.enabled = true) (hScope : rule.scope = .Event)
    (hRisk : rule.riskLevelAtLeast.isEmpty = false)
    (hCat : rule.categoryEquals = "") (hPkg : rule.packageNameContains = "")
    (hFrom : rule.activeFrom = "") :
    eventRuleFires rule event tz =
      decide (riskRank rule.riskLevelAtLeast ≤ riskRank (eventRiskLevel event)) := by
  have hwin : withinActiveWindow rule event.timestamp tz = true := by
    unfold withinActiveWindow
    rw [hFrom]
    rfl
  unfold eventRuleFires ruleMatchesEvent
  rw [hEnabled, hScope, hCat, hPkg, hwin, hRisk]
  by_cases hlt : riskRank (eventRiskLevel event) < riskRank rule.riskLevelAtLeast
  · simp [hlt]
  · rw [Int.not_lt] at hlt
    simp [hlt, (rfl : "".isEmpty = true)]
    exact ⟨Or.inl rfl, Or.inl rfl⟩

/-- C1 witness: the amended theorem applied at a concrete rule and a
concrete event whose `afterState` embeds `riskLevel = "critical"`. -/
theorem risk_gate_uses_embedded_risk_witness :
    eventRuleFires { riskLevelAtLeast := "critical" }
        { afterState := .obj [("riskLevel", .str "critical")] } 0 =
      decide (riskRank "critical" ≤ riskRank (eventRiskLevel
        { afterState := .obj [("riskLevel", .str "critical")] })) :=
  risk_gate_uses_embedded_risk { riskLevelAtLeast := "critical" }
    { afterState := .obj [("riskLevel", .str "critical")] } 0
    rfl rfl rfl rfl rfl rfl

/-- C3: `classify` is a pure function of `(category, summary)` — two
events agreeing on those two fields are assigned identical
`riskLevel`/`riskReason` regardless of any prior risk values — and every
Kernel-category event is assigned `riskLevel = "critical"` with a reason
containing `"Kernel version changed"`. -/
theorem classify_deterministic_kernel_critical (e1 e2 : KhronicleEvent)
    (hcat : e1.category = e2.category) (hsum : e1.summary = e2.summary) :
    ((classify e1).riskLevel = (classify e2).riskLevel ∧
      (classify e1).riskReason = (classify e2).riskReason) ∧
    ∀ e : KhronicleEvent, e.category = .Kernel →
      (classify e).riskLevel = "critical" ∧
      strContainsSub (classify e).riskReason "Kernel version changed" = true := by
  constructor
  · obtain ⟨i1, t1, c1, s1, su1, d1, b1, a1, r1, h1, rl1, rr1⟩ := e1
    obtain ⟨i2, t2, c2, s2, su2, d2, b2, a2, r2, h2, rl2, rr2⟩ := e2
    simp only at hcat hsum
    subst hcat
    subst hsum
    cases c1 <;>
      by_cases hd : strContainsSub (strLower su1) "downgraded" = true <;>
      (simp [classify, updateRisk, severityRank, hd,
        show ("" : String).isEmpty = true from rfl,
        show ("Kernel version changed" : String).isEmpty = false from rfl,
        show ("GPU driver updated" : String).isEmpty = false from rfl,
        show ("Firmware or microcode updated" : String).isEmpty = false from rfl,
        show ("Package downgraded" : String).isEmpty = false from rfl,
        show ("Kernel version changed." : String).isEmpty = false from rfl,
        show ("GPU driver updated." : String).isEmpty = false from rfl,
        show ("Firmware or microcode updated." : String).isEmpty = false from rfl]; try constructor)
  · intro e hk
    obtain ⟨i1, t1, c1, s1, su1, d1, b1, a1, r1, h1, rl1, rr1⟩ := e
    simp only at hk
    subst hk
    by_cases hd : strContainsSub (strLower su1) "downgraded" = true <;>
      (simp [classify, updateRisk, severityRank, hd,
        show ("" : String).isEmpty = true from rfl,
        show ("Kernel version changed" : String).isEmpty = false from rfl,
        show ("GPU driver updated" : String).isEmpty = false from rfl,
        show ("Firmware or microcode updated" : String).isEmpty = false from rfl,
        show ("Package downgraded" : String).isEmpty = false from rfl,
        show ("Kernel version changed." : String).isEmpty = false from rfl,
        show ("GPU driver updated." : String).isEmpty = false from rfl,
        show ("Firmware or microcode updated." : String).isEmpty = false from rfl]; try constructor)

/-- C3 witness: the determinism theorem applied at two concrete events
sharing category and summary but with different prior risk values. -/
theorem classify_deterministic_kernel_critical_witness :
    (((classify classifyWitnessEventA).riskLevel =
        (classify classifyWitnessEventB).riskLevel ∧
      (classify classifyWitnessEventA).riskReason =
        (classify classifyWitnessEventB).riskReason) ∧
    ∀ e : KhronicleEvent, e.category = .Kernel →
      (classify e).riskLevel = "critical" ∧
      strContainsSub (classify e).riskReason "Kernel version changed" = true) :=
  classify_deterministic_kernel_critical classifyWitnessEventA
    classifyWitnessEventB rfl rfl

/-- Invariant of the `parseJournalOutputLines` loop: the event list only
grows, `lastTimestamp` never decreases, and when no line matched (the
event count is unchanged) `lastTimestamp` is unchanged. -/
theorem journalFold_props (tz : Int) : ∀ (lines : List String)
    (acc : JournalParseResult),
    acc.events.length ≤ (lines.foldl (journalFoldStep tz) acc).events.length ∧
    acc.lastTimestamp ≤ (lines.foldl (journalFoldStep tz) acc).lastTimestamp ∧
    ((lines.foldl (journalFoldStep tz) acc).events.length = acc.events.length →
      (lines.foldl (journalFoldStep tz) acc).lastTimestamp = acc.lastTimestamp)
  | [], acc => ⟨le_refl _, le_refl _, fun _ => rfl⟩
  | line :: rest, acc => by
    have ih := journalFold_props tz rest (journalFoldStep tz acc line)
    simp only [List.foldl_cons]
    cases hm : journalLineMatch line tz with
    | none =>
      simp only [journalFoldStep, hm] at ih ⊢
      exact ih
    | some v =>
      obtain ⟨timestamp, isFwupd, isAmd⟩ := v
      simp only [journalFoldStep, hm] at ih ⊢
      obtain ⟨ih1, ih2, ih3⟩ := ih
      simp only [List.length_append, List.length_cons, List.length_nil] at ih1 ih3
      refine ⟨by omega, ?_, fun hlen => by omega⟩
      refine le_trans ?_ ih2
      by_cases hts : acc.lastTimestamp < timestamp
      · simp only [hts, if_pos]
        omega
      · simp only [hts, if_neg, not_false_iff]
        exact le_refl _

/-- C7: for every list of journal lines and every `since` watermark, the
parse's returned timestamp is at least `since`; when no line matches
(zero events) it equals `since` exactly, and a failed `journalctl`
invocation returns `since` unchanged — the watermark never regresses. -/
theorem journal_watermark_monotone (lines : List String) (since tz : Int) :
    since ≤ (parseJournalOutputLines lines since tz).lastTimestamp ∧
    ((parseJournalOutputLines lines since tz).events = [] →
      (parseJournalOutputLines lines since tz).lastTimestamp = since) ∧
    (parseJournalSince none since tz).lastTimestamp = since := by
  have h := journalFold_props tz lines { events := [], lastTimestamp := since }
  refine ⟨h.2.1, fun hev => h.2.2 ?_, rfl⟩
  show (parseJournalOutputLines lines since tz).events.length = _
  rw [hev]

/-- C7 witness: the monotonicity theorem applied to a concrete
non-matching line — the watermark is returned unchanged. -/
theorem journal_watermark_monotone_witness :
    (42 : Int) ≤ (parseJournalOutputLines ["junk line"] 42 0).lastTimestamp ∧
    (parseJournalOutputLines ["junk line"] 42 0).lastTimestamp = 42 :=
  ⟨(journal_watermark_monotone ["junk line"] 42 0).1,
    (journal_watermark_monotone ["junk line"] 42 0).2.1 (by decide)⟩

/-- The C5 line's timestamp text parses to 2026-02-04 12:00 local time
for every realistic zone offset (`mktime` would report `-1` only for a
nonsensical offset). -/
theorem c5_timestamp_parses (tz : Int) (htz : tz.natAbs ≤ 50400) :
    parsePacmanTimestamp "2026-02-04T12:00" tz = some ((1770206400 - tz) * 1000) := by
  show (if (1770206400 - tz : Int) = -1 then none
    else some ((1770206400 - tz) * 1000)) = some ((1770206400 - tz) * 1000)
  rw [if_neg]
  omega

/-- C5: parsing a log consisting of exactly
`"[2026-02-04T12:00] [ALPM] upgraded linux-cachyos (6.1-1 -> 6.1-2)"`
from cursor offset 0 yields exactly one event, with category `Kernel`,
`relatedPackages = ["linux-cachyos"]` and `afterState.version =
"6.1-2"`; classifying that event yields `riskLevel = "critical"` (the
zone offset is bounded by the 14-hour range of real time zones). -/
theorem pacman_end_to_end (tz : Int) (htz : tz.natAbs ≤ 50400) :
    ∃ event : KhronicleEvent,
      (parsePacmanLog (some c5LogLine) (some "0") tz).events = [event] ∧
      event.category = .Kernel ∧
      event.relatedPackages = ["linux-cachyos"] ∧
      event.afterState.find "version" = some (.str "6.1-2") ∧
      (classify event).riskLevel = "critical" := by
  have hts := c5_timestamp_parses tz htz
  have hparse : parseLine c5LogLine = some c5Parsed := rfl
  refine ⟨pacmanEventOf c5Parsed c5LogLine ((1770206400 - tz) * 1000),
    ?_, rfl, rfl, rfl, rfl⟩
  show (pacmanLoop tz [c5LogLine] false 0 0 (some 0) []).1 = _
  simp [pacmanLoop, hparse, kMaxBytesPerRun,
    show c5Parsed.timestamp = "2026-02-04T12:00" from rfl, hts,
    show isInterestingPackage c5Parsed.packageName = true from rfl,
    show c5LogLine.length = 65 from rfl]

/-- C5 witness: the end-to-end theorem applied in the UTC zone. -/
theorem pacman_end_to_end_witness :
    (0 : Int).natAbs ≤ 50400 ∧
    ∃ event : KhronicleEvent,
      (parsePacmanLog (some c5LogLine) (some "0") 0).events = [event] ∧
      event.category = .Kernel ∧
      event.relatedPackages = ["linux-cachyos"] ∧
      event.afterState.find "version" = some (.str "6.1-2") ∧
      (classify event).riskLevel = "critical" :=
  ⟨by decide, pacman_end_to_end 0 (by decide)⟩

/-- Membership in a `std::set` insertion. -/
theorem mem_insertSortedKey (a x : String) : ∀ l : List String,
    a ∈ insertSortedKey x l ↔ a = x ∨ a ∈ l
  | [] => by simp [insertSortedKey]
  | y :: ys => by
    unfold insertSortedKey
    by_cases h1 : x < y
    · simp [h1]
    · by_cases h2 : x = y
      · subst h2
        simp [h1]
      · have ih := mem_insertSortedKey a x ys
        simp [h1, h2, ih]
        tauto

/-- Membership after folding a list of keys into a `std::set`. -/
theorem mem_foldl_insertSortedKey (a : String) : ∀ (l acc : List String),
    a ∈ l.foldl (fun acc k => insertSortedKey k acc) acc ↔ a ∈ acc ∨ a ∈ l
  | [], acc => by simp
  | k :: ks, acc => by
    have ih := mem_foldl_insertSortedKey a ks (insertSortedKey k acc)
    simp only [List.foldl_cons] at ih ⊢
    rw [ih, mem_insertSortedKey]
    simp
    tauto

/-- Membership in the diff's key union is symmetric. -/
theorem mem_keySetUnion (a : String) (k1 k2 : List String) :
    a ∈ keySetUnion k1 k2 ↔ a ∈ k1 ∨ a ∈ k2 := by
  unfold keySetUnion
  rw [mem_foldl_insertSortedKey]
  simp

/-- Swapping the two snapshots swaps each changed field's before/after
values while keeping the same changed paths. -/
theorem mem_snapshotFieldDiff_swap (sA sB : SystemSnapshot) (p : String)
    (x y : Json) :
    (⟨p, x, y⟩ : ChangedField) ∈ snapshotFieldDiff sA sB ↔
    (⟨p, y, x⟩ : ChangedField) ∈ snapshotFieldDiff sB sA := by
  simp only [snapshotFieldDiff, List.mem_append, List.mem_filterMap,
    mem_keySetUnion, Option.ite_none_right_eq_some, Option.some.injEq]
  constructor <;>
    (rintro (((h | h) | h) | ⟨k, hk, hne, heq⟩))
  · left; left; left
    simp_all [ChangedField.mk.injEq]
    tauto
  · left; left; right
    simp_all [ChangedField.mk.injEq]
    tauto
  · left; right
    simp_all [ChangedField.mk.injEq]
    tauto
  · right
    exact ⟨k, by tauto, Ne.symm hne, by simp_all [ChangedField.mk.injEq]⟩
  · left; left; left
    simp_all [ChangedField.mk.injEq]
    tauto
  · left; left; right
    simp_all [ChangedField.mk.injEq]
    tauto
  · left; right
    simp_all [ChangedField.mk.injEq]
    tauto
  · right
    exact ⟨k, by tauto, Ne.symm hne, by simp_all [ChangedField.mk.injEq]⟩

/-- C6: for every store state and every pair of snapshot ids,
`diffSnapshots(a,b)` and `diffSnapshots(b,a)` report the same set of
changed field paths, and an entry `(path, before, after)` appears in one
direction exactly when `(path, after, before)` appears in the other. -/
theorem diffSnapshots_symmetric (st : StoreState) (aId bId : String)
    (p : String) (x y : Json) :
    (⟨p, x, y⟩ : ChangedField) ∈ (st.diffSnapshots aId bId).changedFields ↔
    (⟨p, y, x⟩ : ChangedField) ∈ (st.diffSnapshots bId aId).changedFields := by
  unfold StoreState.diffSnapshots
  cases hA : st.getSnapshot aId <;> cases hB : st.getSnapshot bId <;>
    simp [mem_snapshotFieldDiff_swap]

end Khronicle